import Mathlib

/-!
Verification of the attotime timekeeping library.

This file gives a shallow embedding, over the mathematical integers, of the
parts of the library needed to settle the claims about it:

* `Duration` values are embedded as their attosecond count (`Int`).  Rust's
  `i128` division `/` truncates toward zero, which is `Int.tdiv`; the `%`
  operator is `Int.tmod`; `num_integer::div_floor` is `Int.fdiv`.
* `TimePoint<Scale>` values are embedded as the attosecond count of their
  time since the scale's epoch (`Int`).
* `Date` / `Days` values are embedded as their day count since 1970-01-01
  (`Int`).  Arithmetic overflow of the fixed-width machine integers is a
  fatal (panicking) condition in the source and is outside this model.
-/

namespace Attotime

/-- Attoseconds per millisecond (units.rs, `Milli = LiteralRatio<10^15>`). -/
def attosPerMilli : Int := 1000000000000000

/-- Attoseconds per nanosecond (units.rs, `Nano = LiteralRatio<10^9>`). -/
def attosPerNano : Int := 1000000000

/-- Attoseconds per second (units.rs, `Second = LiteralRatio<10^18>`). -/
def attosPerSecond : Int := 1000000000000000000

/-- Attoseconds per minute (units.rs, `SecondsPerMinute`). -/
def attosPerMinute : Int := 1000000000000000000 * 60

/-- Attoseconds per hour (units.rs, `SecondsPerHour`). -/
def attosPerHour : Int := 1000000000000000000 * 3600

/-- Attoseconds per day (units.rs, `SecondsPerDay`). -/
def attosPerDay : Int := 1000000000000000000 * 3600 * 24

/-- `Duration::div_round` (duration.rs): divides by an integer, rounding to
the nearest result, implemented as `(count + other / 2) / other` with both
divisions being Rust's truncating `i128` division. -/
def divRound (a b : Int) : Int := (a + b.tdiv 2).tdiv b

/-- `Duration::truncate::<Target>` (duration.rs): `(count / unit) * unit`
with truncating division. -/
def truncateTo (u a : Int) : Int := a.tdiv u * u

/-- `Duration::floor::<Target>` (duration.rs): `div_floor(count, unit) * unit`. -/
def floorTo (u a : Int) : Int := a.fdiv u * u

/-- `Duration::factor_out::<Unit>` (duration.rs): truncates, takes the
remainder against the original, and divides the truncated part down to a
whole number of units. -/
def factorOut (u a : Int) : Int × Int :=
  let factored := truncateTo u a
  (factored.tdiv u, a - factored)

/-- A terrestrial time scale (terrestrial_time.rs / time_scale.rs): a scale
descriptor carrying an epoch, as a day count since 1970-01-01, and a constant
`TAI_OFFSET` duration. -/
structure TerrestrialScale where
  epoch : Int
  taiOffset : Int

/-- `FromTimeScale<ScaleFrom> for TimePoint<ScaleInto>` for two terrestrial
scales (terrestrial_time.rs): shifts the time since epoch by the difference
of the epochs (in days, converted to a duration) and the difference of the
TAI offsets, flipping the subtraction order depending on the offsets' order. -/
def fromTimeScale (src dst : TerrestrialScale) (t : Int) : Int :=
  let epochOffset := (src.epoch - dst.epoch) * attosPerDay
  if dst.taiOffset ≤ src.taiOffset then
    let scaleOffset := src.taiOffset - dst.taiOffset
    t - scaleOffset + epochOffset
  else
    let scaleOffset := dst.taiOffset - src.taiOffset
    t + scaleOffset + epochOffset

end Attotime

namespace Attotime

/-- `errors.rs` `InvalidTimeOfDay`: the time-of-day error value, carrying the
offending inputs. -/
structure InvalidTimeOfDay where
  hour : Nat
  minute : Nat
  second : Nat
deriving DecidableEq

/-- `FromDateTime for TimePoint<Scale>` for a uniform (leap-second-free)
scale (datetime.rs `from_datetime`): validates the time of day and sums
hours, minutes, seconds and days since the scale epoch. -/
def uniformFromDatetime (epoch date : Int) (hour minute second : Nat) :
    Except InvalidTimeOfDay Int :=
  if 24 ≤ hour ∨ 60 ≤ minute ∨ 60 ≤ second then
    .error ⟨hour, minute, second⟩
  else
    let daysSinceScaleEpoch := date * attosPerDay - epoch * attosPerDay
    let hours := (hour : Int) * attosPerHour
    let minutes := (minute : Int) * attosPerMinute
    let seconds := (second : Int) * attosPerSecond
    .ok (hours + minutes + seconds + daysSinceScaleEpoch)

/-- `IntoDateTime for TimePoint<Scale>` for a uniform scale (datetime.rs
`into_datetime`): floor-divides the time since epoch into days, then factors
the intraday remainder into hours, minutes and whole seconds, and rebuilds
the date from the scale epoch. -/
def uniformIntoDatetime (epoch t : Int) : Int × Int × Int × Int :=
  let factored := floorTo attosPerDay t
  let daysSinceScaleEpoch := factored.tdiv attosPerDay
  let secondsInDay := t - factored
  let hm := factorOut attosPerHour secondsInDay
  let ms := factorOut attosPerMinute hm.2
  let second := floorTo attosPerSecond ms.2
  let date := epoch + daysSinceScaleEpoch
  (date, hm.1, ms.1, second.tdiv attosPerSecond)

/-- `errors.rs` `InvalidUtcDateTime`: either an invalid time of day or a
claimed leap second on a date that has none, carrying the offending inputs. -/
inductive InvalidUtcDateTime where
  | invalidTimeOfDay (hour minute second : Nat)
  | nonLeapSecondDateTime (date : Int) (hour minute second : Nat)
deriving DecidableEq

/-- `StaticLeapSecondProvider::leap_seconds_on_date` (leap_seconds.rs): the
static jump table from days since 1970-01-01 to whether the day ends in a
leap second and the cumulative leap second count before that date, matched
in reverse chronological order. -/
def leapSecondsOnDate (d : Int) : Bool × Int :=
  if 17167 ≤ d then (false, 37)
  else if d = 17166 then (true, 36)
  else if 16617 ≤ d then (false, 36)
  else if d = 16616 then (true, 35)
  else if 15522 ≤ d then (false, 35)
  else if d = 15521 then (true, 34)
  else if 14245 ≤ d then (false, 34)
  else if d = 14244 then (true, 33)
  else if 13149 ≤ d then (false, 33)
  else if d = 13148 then (true, 32)
  else if 10592 ≤ d then (false, 32)
  else if d = 10591 then (true, 31)
  else if 10043 ≤ d then (false, 31)
  else if d = 10042 then (true, 30)
  else if 9496 ≤ d then (false, 30)
  else if d = 9495 then (true, 29)
  else if 8947 ≤ d then (false, 29)
  else if d = 8946 then (true, 28)
  else if 8582 ≤ d then (false, 28)
  else if d = 8581 then (true, 27)
  else if 8217 ≤ d then (false, 27)
  else if d = 8216 then (true, 26)
  else if 7670 ≤ d then (false, 26)
  else if d = 7669 then (true, 25)
  else if 7305 ≤ d then (false, 25)
  else if d = 7304 then (true, 24)
  else if 6574 ≤ d then (false, 24)
  else if d = 6573 then (true, 23)
  else if 5660 ≤ d then (false, 23)
  else if d = 5659 then (true, 22)
  else if 4929 ≤ d then (false, 22)
  else if d = 4928 then (true, 21)
  else if 4564 ≤ d then (false, 21)
  else if d = 4563 then (true, 20)
  else if 4199 ≤ d then (false, 20)
  else if d = 4198 then (true, 19)
  else if 3652 ≤ d then (false, 19)
  else if d = 3651 then (true, 18)
  else if 3287 ≤ d then (false, 18)
  else if d = 3286 then (true, 17)
  else if 2922 ≤ d then (false, 17)
  else if d = 2921 then (true, 16)
  else if 2557 ≤ d then (false, 16)
  else if d = 2556 then (true, 15)
  else if 2191 ≤ d then (false, 15)
  else if d = 2190 then (true, 14)
  else if 1826 ≤ d then (false, 14)
  else if d = 1825 then (true, 13)
  else if 1461 ≤ d then (false, 13)
  else if d = 1460 then (true, 12)
  else if 1096 ≤ d then (false, 12)
  else if d = 1095 then (true, 11)
  else if 912 ≤ d then (false, 11)
  else if d = 911 then (true, 10)
  else if 730 ≤ d then (false, 10)
  else if d = 729 then (true, 9)
  else (false, 9)

/-- `StaticLeapSecondProvider::leap_seconds_at_time` (leap_seconds.rs): the
static jump table from a UTC time since epoch (first truncated to whole
seconds since 1972-01-01 by the `Duration / Duration` truncating division)
to whether that second is exactly a leap second and the applicable
cumulative leap second count. -/
def leapSecondsAtTime (t : Int) : Bool × Int :=
  let secs := t.tdiv attosPerSecond
  if 1420156837 ≤ secs then (false, 37)
  else if secs = 1420156836 then (true, 36)
  else if 1372636836 ≤ secs then (false, 36)
  else if secs = 1372636835 then (true, 35)
  else if 1278028835 ≤ secs then (false, 35)
  else if secs = 1278028834 then (true, 34)
  else if 1167696034 ≤ secs then (false, 34)
  else if secs = 1167696033 then (true, 33)
  else if 1073001633 ≤ secs then (false, 33)
  else if secs = 1073001632 then (true, 32)
  else if 852076832 ≤ secs then (false, 32)
  else if secs = 852076831 then (true, 31)
  else if 804643231 ≤ secs then (false, 31)
  else if secs = 804643230 then (true, 30)
  else if 757382430 ≤ secs then (false, 30)
  else if secs = 757382429 then (true, 29)
  else if 709948829 ≤ secs then (false, 29)
  else if secs = 709948828 then (true, 28)
  else if 678412828 ≤ secs then (false, 28)
  else if secs = 678412827 then (true, 27)
  else if 646876827 ≤ secs then (false, 27)
  else if secs = 646876826 then (true, 26)
  else if 599616026 ≤ secs then (false, 26)
  else if secs = 599616025 then (true, 25)
  else if 568080025 ≤ secs then (false, 25)
  else if secs = 568080024 then (true, 24)
  else if 504921624 ≤ secs then (false, 24)
  else if secs = 504921623 then (true, 23)
  else if 425952023 ≤ secs then (false, 23)
  else if secs = 425952022 then (true, 22)
  else if 362793622 ≤ secs then (false, 22)
  else if secs = 362793621 then (true, 21)
  else if 331257621 ≤ secs then (false, 21)
  else if secs = 331257620 then (true, 20)
  else if 299721620 ≤ secs then (false, 20)
  else if secs = 299721619 then (true, 19)
  else if 252460819 ≤ secs then (false, 19)
  else if secs = 252460818 then (true, 18)
  else if 220924818 ≤ secs then (false, 18)
  else if secs = 220924817 then (true, 17)
  else if 189388817 ≤ secs then (false, 17)
  else if secs = 189388816 then (true, 16)
  else if 157852816 ≤ secs then (false, 16)
  else if secs = 157852815 then (true, 15)
  else if 126230415 ≤ secs then (false, 15)
  else if secs = 126230414 then (true, 14)
  else if 94694414 ≤ secs then (false, 14)
  else if secs = 94694413 then (true, 13)
  else if 63158413 ≤ secs then (false, 13)
  else if secs = 63158412 then (true, 12)
  else if 31622412 ≤ secs then (false, 12)
  else if secs = 31622411 then (true, 11)
  else if 15724811 ≤ secs then (false, 11)
  else if secs = 15724810 then (true, 10)
  else if 10 ≤ secs then (false, 10)
  else if secs = 9 then (true, 9)
  else (false, 9)

/-- Modelled from the spec: the UTC scale epoch is 1972-01-01 (utc.rs,
`Utc::EPOCH = Date::from_historic_date(1972, January, 1)`).  The calendar
collaborator that turns that date into a day count is outside the core
sources; per the spec's data model a `Date` counts days since 1970-01-01,
and 1972-01-01 is 730 days (two non-leap years) after 1970-01-01. -/
def utcEpochDays : Int := 730

/-- `FromDateTime for UtcTime` (utc.rs `from_datetime`): validates the time
of day allowing second 60, requires second 60 to fall on a leap second day,
and sums hours, minutes, seconds, the accumulated leap seconds before the
date, and the days since the UTC epoch. -/
def utcFromDatetime (date : Int) (hour minute second : Nat) :
    Except InvalidUtcDateTime Int :=
  if 23 < hour ∨ 59 < minute ∨ 60 < second then
    .error (.invalidTimeOfDay hour minute second)
  else if second = 60 ∧ (leapSecondsOnDate date).1 = false then
    .error (.nonLeapSecondDateTime date hour minute second)
  else
    .ok ((hour : Int) * attosPerHour + (minute : Int) * attosPerMinute +
      (second : Int) * attosPerSecond + (leapSecondsOnDate date).2 * attosPerSecond +
      (date - utcEpochDays) * attosPerDay)

/-- `IntoDateTime for UtcTime` (utc.rs `into_datetime`): subtracts the
applicable cumulative leap seconds, floor-divides into days and factors the
intraday remainder into hours, minutes and whole seconds; when the instant
is exactly a leap second it reports `(previous day, 23, 59, 60)` instead. -/
def utcIntoDatetime (t : Int) : Int × Int × Int × Int :=
  let ls := leapSecondsAtTime t
  let t2 := t - ls.2 * attosPerSecond
  let factored := floorTo attosPerDay t2
  let daysSinceScaleEpoch := factored.tdiv attosPerDay
  let secondsInDay := t2 - factored
  let hm := factorOut attosPerHour secondsInDay
  let ms := factorOut attosPerMinute hm.2
  let second := floorTo attosPerSecond ms.2
  let date := utcEpochDays + daysSinceScaleEpoch
  if ls.1 then (date - 1, 23, 59, 60)
  else (date, hm.1, ms.1, second.tdiv attosPerSecond)

/-- Equality of `Except` results is decidable; used to evaluate the embedded
functions on concrete inputs. -/
instance exceptDecidableEq {ε α : Type} [DecidableEq ε] [DecidableEq α] :
    DecidableEq (Except ε α) := fun x y =>
  match x, y with
  | .ok a, .ok b => decidable_of_iff (a = b) (by simp)
  | .error a, .error b => decidable_of_iff (a = b) (by simp)
  | .ok _, .error _ => isFalse (by simp)
  | .error _, .ok _ => isFalse (by simp)

/-- The days that end in a leap second according to the static table of
`leap_seconds_on_date` (leap_seconds.rs): every day the table maps to a
`true` flag. -/
def leapDayList : List Int :=
  [729, 911, 1095, 1460, 1825, 2190, 2556, 2921, 3286, 3651, 4198, 4563,
   4928, 5659, 6573, 7304, 7669, 8216, 8581, 8946, 9495, 10042, 10591,
   13148, 14244, 15521, 16616, 17166]

/-- Attoseconds per month, 1/12 of an average Gregorian year
(units.rs, `SecondsPerMonth`). -/
def attosPerMonth : Int := 1000000000000000000 * 2629746

/-- Attoseconds per average Gregorian year (units.rs, `SecondsPerYear`). -/
def attosPerYear : Int := 1000000000000000000 * 31556952

/-- `Duration::seconds` (duration.rs). -/
def Duration.seconds (count : Int) : Int := count * attosPerSecond

/-- `Duration::minutes` (duration.rs). -/
def Duration.minutes (count : Int) : Int := count * attosPerMinute

/-- `Duration::hours` (duration.rs). -/
def Duration.hours (count : Int) : Int := count * attosPerHour

/-- `Duration::days` (duration.rs). -/
def Duration.days (count : Int) : Int := count * attosPerDay

/-- `Duration::months` (duration.rs). -/
def Duration.months (count : Int) : Int := count * attosPerMonth

/-- `Duration::years` (duration.rs). -/
def Duration.years (count : Int) : Int := count * attosPerYear

/-- `TcgTime::into_tt` (tcg.rs): subtract the 32.184 s reference offset from
the TCG time since the 1977-01-01 epoch, subtract the elapsed time times
3,484,645,067 / 5×10¹⁸ rounded to the nearest attosecond, and add the offset
back. -/
def tcgIntoTt (tcg : Int) : Int :=
  let epochOffset := 32184 * attosPerMilli
  let tcgSince32184 := tcg - epochOffset
  let rateDifference := divRound (tcgSince32184 * 3484645067) 5000000000000000000
  epochOffset + (tcgSince32184 - rateDifference)

/-- `TcgTime::from_tt` (tcg.rs): subtract the 32.184 s reference offset from
the TT time since the 1977-01-01 epoch, add the elapsed time times
3,484,645,067 / 4,999,999,996,515,354,933 rounded to the nearest attosecond,
and add the offset back. -/
def tcgFromTt (tt : Int) : Int :=
  let epochOffset := 32184 * attosPerMilli
  let ttSince32184 := tt - epochOffset
  let rateDifference := divRound (ttSince32184 * 3484645067) 4999999996515354933
  epochOffset + (ttSince32184 + rateDifference)

/-- Stated from the claim's words, for comparison with the source's
`tcgFromTt`: the TT→TCG direction with the rate term computed as the elapsed
time times the exact rational 3,484,645,067 / 5,000,000,000,000,000,000
rounded to the nearest attosecond. -/
def tcgFromTtClaim (tt : Int) : Int :=
  let epochOffset := 32184 * attosPerMilli
  let ttSince32184 := tt - epochOffset
  let rateDifference := divRound (ttSince32184 * 3484645067) 5000000000000000000
  epochOffset + (ttSince32184 + rateDifference)

/-- `FromTimeScale<Tcb> for TdbTime` (tdb.rs): subtract the 32.184 s
reference offset, subtract the elapsed time times
193,814,971 / 12,500,000,000,000,000 rounded to the nearest attosecond, add
the offset back and add the constant TDB0 = −65.5 µs. -/
def tdbFromTcb (tcb : Int) : Int :=
  let tdb0 := (-65500) * attosPerNano
  let epochOffset := 32184 * attosPerMilli
  let tcbSince32184 := tcb - epochOffset
  let rateDifference := divRound (tcbSince32184 * 193814971) 12500000000000000
  (tcbSince32184 - rateDifference + epochOffset) + tdb0

/-- `FromTimeScale<Tdb> for TcbTime` (tdb.rs): subtract the 32.184 s
reference offset, add the elapsed time times
193,814,971 / 12,499,999,806,185,029 rounded to the nearest attosecond, add
the scaled TCB0 constant and the offset back. -/
def tcbFromTdb (tdb : Int) : Int :=
  let tcb0 := divRound (65500 * 12500000000000000 * attosPerNano) 12499999806185029
  let epochOffset := 32184 * attosPerMilli
  let tdbSince32184 := tdb - epochOffset
  let rateDifference := divRound (tdbSince32184 * 193814971) 12499999806185029
  tdbSince32184 + rateDifference + tcb0 + epochOffset

end Attotime

namespace Attotime

/-- `parse/duration.rs` `DurationDesignator`: the duration symbols supported
when expressing durations as strings. -/
inductive DurationDesignator where
  | seconds
  | minutes
  | hours
  | days
  | years
deriving DecidableEq

/-- `errors.rs` `DurationParsingError`.  `integerParsingError` stands for a
wrapped `lexical_core::Error`, and `expectedDurationStart` for the variant
reporting a missing leading 'P' (named "ExpectedDurationPrefix" in the
source). -/
inductive DurationParsingError where
  | integerParsingError
  | expectedDurationStart
  | expectedDurationDesignator
  | unexpectedRemainder
  | nonDecreasingDesignators (current : DurationDesignator)
deriving DecidableEq

/-- Digit-consuming loop of the integer parser: consumes decimal digits from
the front, returning the accumulated value, the number of digits consumed,
and the remaining input. -/
def parseDigitsAcc : List Char → Int → Nat → Int × Nat × List Char
  | [], acc, n => (acc, n, [])
  | c :: cs, acc, n =>
    if c.isDigit then parseDigitsAcc cs (acc * 10 + ((c.toNat : Int) - 48)) (n + 1)
    else (acc, n, c :: cs)

/-- Model of `lexical_core::parse_partial::<i128>`: parses an optional sign
followed by greedily consumed decimal digits from the front of the input,
returning the parsed value, the number of consumed characters, and the rest
of the input; errors when no digits are present. -/
def parsePartial (s : List Char) : Except DurationParsingError (Int × Nat × List Char) :=
  match s with
  | '-' :: rest =>
    match parseDigitsAcc rest 0 0 with
    | (_, 0, _) => .error .integerParsingError
    | (v, n, r) => .ok (-v, n + 1, r)
  | '+' :: rest =>
    match parseDigitsAcc rest 0 0 with
    | (_, 0, _) => .error .integerParsingError
    | (v, n, r) => .ok (v, n + 1, r)
  | _ =>
    match parseDigitsAcc s 0 0 with
    | (_, 0, _) => .error .integerParsingError
    | (v, n, r) => .ok (v, n, r)

/-- `parse_seconds_fractional_duration` (parse/duration.rs). -/
def parseSecondsFractionalDuration (s : List Char) (duration count : Int) :
    Except DurationParsingError Int :=
  match parsePartial (s.drop 1) with
  | .error e => .error e
  | .ok (subcount, fractionalDigits, rest) =>
    let denominator : Int := 10 ^ fractionalDigits
    let numerator := subcount
    match rest with
    | [] => .error .expectedDurationDesignator
    | c :: rest2 =>
      if rest2 ≠ [] then .error .unexpectedRemainder
      else
        match c with
        | 'Y' => .error (.nonDecreasingDesignators .years)
        | 'D' => .error (.nonDecreasingDesignators .days)
        | 'H' => .error (.nonDecreasingDesignators .hours)
        | 'M' => .error (.nonDecreasingDesignators .minutes)
        | 'S' => .ok (duration + Duration.seconds count +
            divRound (Duration.seconds numerator) denominator)
        | _ => .error .expectedDurationDesignator

/-- `parse_seconds_duration_designator` (parse/duration.rs). -/
def parseSecondsDurationDesignator (s : List Char) (duration count : Int) :
    Except DurationParsingError Int :=
  match s with
  | [] => .error .expectedDurationDesignator
  | c :: rest =>
    let rest := match rest with
      | 'T' :: rest2 => rest2
      | _ => rest
    match c with
    | 'Y' => .error (.nonDecreasingDesignators .years)
    | 'D' => .error (.nonDecreasingDesignators .days)
    | 'H' => .error (.nonDecreasingDesignators .hours)
    | 'M' => .error (.nonDecreasingDesignators .minutes)
    | 'S' =>
      if rest ≠ [] then .error .unexpectedRemainder
      else .ok (duration + Duration.seconds count)
    | _ => .error .expectedDurationDesignator

/-- `parse_seconds_duration` (parse/duration.rs). -/
def parseSecondsDuration (s : List Char) (duration : Int) :
    Except DurationParsingError Int :=
  match s with
  | [] => .ok duration
  | _ =>
    match parsePartial s with
    | .error e => .error e
    | .ok (count, _, rest) =>
      match rest with
      | '.' :: _ => parseSecondsFractionalDuration rest duration count
      | _ => parseSecondsDurationDesignator rest duration count

/-- `parse_minutes_fractional_duration` (parse/duration.rs). -/
def parseMinutesFractionalDuration (s : List Char) (duration count : Int) :
    Except DurationParsingError Int :=
  match parsePartial (s.drop 1) with
  | .error e => .error e
  | .ok (subcount, fractionalDigits, rest) =>
    let denominator : Int := 10 ^ fractionalDigits
    let numerator := subcount
    match rest with
    | [] => .error .expectedDurationDesignator
    | c :: rest2 =>
      if rest2 ≠ [] then .error .unexpectedRemainder
      else
        match c with
        | 'Y' => .error (.nonDecreasingDesignators .years)
        | 'D' => .error (.nonDecreasingDesignators .days)
        | 'H' => .error (.nonDecreasingDesignators .hours)
        | 'M' => .ok (duration + Duration.minutes count +
            divRound (Duration.minutes numerator) denominator)
        | 'S' => .ok (duration + Duration.seconds count +
            divRound (Duration.seconds numerator) denominator)
        | _ => .error .expectedDurationDesignator

/-- `parse_minutes_duration_designator` (parse/duration.rs). -/
def parseMinutesDurationDesignator (s : List Char) (duration count : Int) :
    Except DurationParsingError Int :=
  match s with
  | [] => .error .expectedDurationDesignator
  | c :: rest =>
    let rest := match rest with
      | 'T' :: rest2 => rest2
      | _ => rest
    match c with
    | 'Y' => .error (.nonDecreasingDesignators .years)
    | 'D' => .error (.nonDecreasingDesignators .days)
    | 'H' => .error (.nonDecreasingDesignators .hours)
    | 'M' => parseSecondsDuration rest (duration + Duration.minutes count)
    | 'S' =>
      if rest ≠ [] then .error .unexpectedRemainder
      else .ok (duration + Duration.seconds count)
    | _ => .error .expectedDurationDesignator

/-- `parse_minutes_duration` (parse/duration.rs). -/
def parseMinutesDuration (s : List Char) (duration : Int) :
    Except DurationParsingError Int :=
  match s with
  | [] => .ok duration
  | _ =>
    match parsePartial s with
    | .error e => .error e
    | .ok (count, _, rest) =>
      match rest with
      | '.' :: _ => parseMinutesFractionalDuration rest duration count
      | _ => parseMinutesDurationDesignator rest duration count

/-- `parse_hours_fractional_duration` (parse/duration.rs). -/
def parseHoursFractionalDuration (s : List Char) (duration count : Int) :
    Except DurationParsingError Int :=
  match parsePartial (s.drop 1) with
  | .error e => .error e
  | .ok (subcount, fractionalDigits, rest) =>
    let denominator : Int := 10 ^ fractionalDigits
    let numerator := subcount
    match rest with
    | [] => .error .expectedDurationDesignator
    | c :: rest2 =>
      if rest2 ≠ [] then .error .unexpectedRemainder
      else
        match c with
        | 'Y' => .error (.nonDecreasingDesignators .years)
        | 'D' => .error (.nonDecreasingDesignators .days)
        | 'H' => .ok (duration + Duration.hours count +
            divRound (Duration.hours numerator) denominator)
        | 'M' => .ok (duration + Duration.minutes count +
            divRound (Duration.minutes numerator) denominator)
        | 'S' => .ok (duration + Duration.seconds count +
            divRound (Duration.seconds numerator) denominator)
        | _ => .error .expectedDurationDesignator

/-- `parse_hours_duration_designator` (parse/duration.rs). -/
def parseHoursDurationDesignator (s : List Char) (duration count : Int) :
    Except DurationParsingError Int :=
  match s with
  | [] => .error .expectedDurationDesignator
  | c :: rest =>
    match c with
    | 'Y' => .error (.nonDecreasingDesignators .years)
    | 'D' => .error (.nonDecreasingDesignators .days)
    | 'H' => parseMinutesDuration rest (duration + Duration.hours count)
    | 'M' => parseSecondsDuration rest (duration + Duration.minutes count)
    | 'S' =>
      if rest ≠ [] then .error .unexpectedRemainder
      else .ok (duration + Duration.seconds count)
    | _ => .error .expectedDurationDesignator

/-- `parse_hours_duration` (parse/duration.rs). -/
def parseHoursDuration (s : List Char) (duration : Int) :
    Except DurationParsingError Int :=
  match s with
  | [] => .ok duration
  | _ =>
    match parsePartial s with
    | .error e => .error e
    | .ok (count, _, rest) =>
      match rest with
      | '.' :: _ => parseHoursFractionalDuration rest duration count
      | _ => parseHoursDurationDesignator rest duration count

/-- `parse_days_fractional_duration` (parse/duration.rs). -/
def parseDaysFractionalDuration (s : List Char) (duration count : Int) :
    Except DurationParsingError Int :=
  match parsePartial (s.drop 1) with
  | .error e => .error e
  | .ok (subcount, fractionalDigits, rest) =>
    let denominator : Int := 10 ^ fractionalDigits
    let numerator := subcount
    match rest with
    | [] => .error .expectedDurationDesignator
    | c :: rest2 =>
      if rest2 ≠ [] then .error .unexpectedRemainder
      else
        match c with
        | 'Y' => .error (.nonDecreasingDesignators .years)
        | 'D' => .ok (duration + Duration.days count +
            divRound (Duration.days numerator) denominator)
        | 'H' => .ok (duration + Duration.hours count +
            divRound (Duration.hours numerator) denominator)
        | 'M' => .ok (duration + Duration.minutes count +
            divRound (Duration.minutes numerator) denominator)
        | 'S' => .ok (duration + Duration.seconds count +
            divRound (Duration.seconds numerator) denominator)
        | _ => .error .expectedDurationDesignator

/-- `parse_days_duration_designator` (parse/duration.rs). -/
def parseDaysDurationDesignator (s : List Char) (duration count : Int) :
    Except DurationParsingError Int :=
  match s with
  | [] => .error .expectedDurationDesignator
  | c :: rest =>
    let rest := match rest with
      | 'T' :: rest2 => rest2
      | _ => rest
    match c with
    | 'Y' => .error (.nonDecreasingDesignators .years)
    | 'D' => parseHoursDuration rest (duration + Duration.days count)
    | 'H' => parseMinutesDuration rest (duration + Duration.hours count)
    | 'M' => parseSecondsDuration rest (duration + Duration.minutes count)
    | 'S' =>
      if rest ≠ [] then .error .unexpectedRemainder
      else .ok (duration + Duration.seconds count)
    | _ => .error .expectedDurationDesignator

/-- `parse_days_duration` (parse/duration.rs). -/
def parseDaysDuration (s : List Char) (duration : Int) :
    Except DurationParsingError Int :=
  match s with
  | [] => .ok duration
  | 'T' :: rest => parseHoursDuration rest duration
  | _ =>
    match parsePartial s with
    | .error e => .error e
    | .ok (count, _, rest) =>
      match rest with
      | '.' :: _ => parseDaysFractionalDuration rest duration count
      | _ => parseDaysDurationDesignator rest duration count

/-- `parse_months_fractional_duration` (parse/duration.rs). -/
def parseMonthsFractionalDuration (s : List Char) (duration count : Int) :
    Except DurationParsingError Int :=
  match parsePartial (s.drop 1) with
  | .error e => .error e
  | .ok (subcount, fractionalDigits, rest) =>
    let denominator : Int := 10 ^ fractionalDigits
    let numerator := subcount
    match rest with
    | [] => .error .expectedDurationDesignator
    | c :: rest2 =>
      if rest2 ≠ [] then .error .unexpectedRemainder
      else
        match c with
        | 'Y' => .error (.nonDecreasingDesignators .years)
        | 'M' => .ok (duration + Duration.months count +
            divRound (Duration.months numerator) denominator)
        | 'D' => .ok (duration + Duration.days count +
            divRound (Duration.days numerator) denominator)
        | 'H' => .ok (duration + Duration.hours count +
            divRound (Duration.hours numerator) denominator)
        | 'S' => .ok (duration + Duration.seconds count +
            divRound (Duration.seconds numerator) denominator)
        | _ => .error .expectedDurationDesignator

/-- `parse_months_duration_designator` (parse/duration.rs). -/
def parseMonthsDurationDesignator (s : List Char) (duration count : Int) :
    Except DurationParsingError Int :=
  match s with
  | [] => .error .expectedDurationDesignator
  | c :: rest =>
    let rest := match rest with
      | 'T' :: rest2 => rest2
      | _ => rest
    match c with
    | 'Y' => .error (.nonDecreasingDesignators .years)
    | 'M' => parseDaysDuration rest (duration + Duration.months count)
    | 'D' => parseHoursDuration rest (duration + Duration.days count)
    | 'H' => parseMinutesDuration rest (duration + Duration.hours count)
    | 'S' =>
      if rest ≠ [] then .error .unexpectedRemainder
      else .ok (duration + Duration.seconds count)
    | _ => .error .expectedDurationDesignator

/-- `parse_months_duration` (parse/duration.rs). -/
def parseMonthsDuration (s : List Char) (duration : Int) :
    Except DurationParsingError Int :=
  match s with
  | [] => .ok duration
  | 'T' :: rest => parseHoursDuration rest duration
  | _ =>
    match parsePartial s with
    | .error e => .error e
    | .ok (count, _, rest) =>
      match rest with
      | '.' :: _ => parseMonthsFractionalDuration rest duration count
      | _ => parseMonthsDurationDesignator rest duration count

/-- `parse_years_fractional_duration` (parse/duration.rs). -/
def parseYearsFractionalDuration (s : List Char) (count : Int) :
    Except DurationParsingError Int :=
  match parsePartial (s.drop 1) with
  | .error e => .error e
  | .ok (subcount, fractionalDigits, rest) =>
    let denominator : Int := 10 ^ fractionalDigits
    let numerator := subcount
    match rest with
    | [] => .error .expectedDurationDesignator
    | c :: rest2 =>
      if rest2 ≠ [] then .error .unexpectedRemainder
      else
        match c with
        | 'Y' => .ok (Duration.years count + divRound (Duration.years numerator) denominator)
        | 'M' => .ok (Duration.months count + divRound (Duration.months numerator) denominator)
        | 'D' => .ok (Duration.days count + divRound (Duration.days numerator) denominator)
        | 'H' => .ok (Duration.hours count + divRound (Duration.hours numerator) denominator)
        | 'S' => .ok (Duration.seconds count + divRound (Duration.seconds numerator) denominator)
        | _ => .error .expectedDurationDesignator

/-- `parse_years_duration_designator` (parse/duration.rs). -/
def parseYearsDurationDesignator (s : List Char) (count : Int) :
    Except DurationParsingError Int :=
  match s with
  | [] => .error .expectedDurationDesignator
  | c :: rest =>
    match c with
    | 'Y' => parseMonthsDuration rest (Duration.years count)
    | 'M' => parseDaysDuration rest (Duration.months count)
    | 'D' => parseHoursDuration rest (Duration.days count)
    | 'H' => parseMinutesDuration rest (Duration.hours count)
    | 'S' =>
      if rest ≠ [] then .error .unexpectedRemainder
      else .ok (Duration.seconds count)
    | _ => .error .expectedDurationDesignator

/-- `parse_years_duration` (parse/duration.rs): the remainder of an ISO 8601
duration string after the 'P'. -/
def parseYearsDuration (s : List Char) : Except DurationParsingError Int :=
  match s with
  | 'T' :: rest => parseHoursDuration rest 0
  | _ =>
    match parsePartial s with
    | .error e => .error e
    | .ok (count, _, rest) =>
      match rest with
      | '.' :: _ => parseYearsFractionalDuration rest count
      | _ => parseYearsDurationDesignator rest count

/-- `Duration::from_str` (parse/duration.rs): requires the mandatory leading
'P' and hands the remainder to `parseYearsDuration`. -/
def durationFromStr (s : List Char) : Except DurationParsingError Int :=
  match s with
  | 'P' :: rest => parseYearsDuration rest
  | _ => .error .expectedDurationStart

end Attotime

namespace Attotime

/-- State of `FractionalDigitsIterator` (fractional_digits.rs). -/
structure FracState where
  remainder : Int
  denominator : Int
  base : Nat
  precision : Option Nat
  currentDigits : Nat
deriving DecidableEq

/-- `FractionalDigitsIterator::from_signed` (fractional_digits.rs): takes
the absolute value of the count, multiplies into the numerator and keeps the
remainder against the denominator. -/
def FracState.fromSigned (count numerator denominator : Int)
    (precision : Option Nat) (base : Nat) : FracState :=
  ⟨(numerator * (if 0 ≤ count then count else -count)).tmod denominator,
    denominator, base, precision, 0⟩

/-- `FractionalDigitsIterator::next` (fractional_digits.rs): keeps going
while under the requested precision (or, absent one, while the remainder is
non-zero) and strictly under the 64-digit safety limit; multiplies the
remainder by the base and splits off the integer part as the next digit. -/
def FracState.next (s : FracState) : Option (Int × FracState) :=
  let keepGoing : Bool :=
    match s.precision with
    | some p => decide (s.currentDigits < p)
    | none => !(s.remainder == 0)
  if keepGoing = true ∧ s.currentDigits < 64 then
    let rem := s.remainder * (s.base : Int)
    let digit := rem.tdiv s.denominator
    some (digit, ⟨rem.tmod s.denominator, s.denominator, s.base, s.precision,
      s.currentDigits + 1⟩)
  else none

/-- `Duration::fractional_digits` (duration.rs): the iterator over the
fractional digits of a duration, seeded with the duration's count over one
second's worth of attoseconds. -/
def durationFractionalDigits (count : Int) (precision : Option Nat) (base : Nat) :
    FracState :=
  FracState.fromSigned count 1 1000000000000000000 precision base

/-- Fuel-indexed unfolding of the iterator: the list of digits produced by
repeatedly calling `next`, up to `fuel` calls. -/
def runDigits : Nat → FracState → List Int
  | 0, _ => []
  | fuel + 1, s =>
    match s.next with
    | none => []
    | some (digit, s2) => digit :: runDigits fuel s2

/-- `FromFineDateTime for TimePoint<Scale>` (time_point.rs
`from_fine_datetime`): builds the coarse time point through the scale's
`from_datetime` (propagating its error), then adds the subseconds without
validating them. -/
def fromFineDatetime {ε : Type} (fromDatetime : Int → Nat → Nat → Nat → Except ε Int)
    (date : Int) (hour minute second : Nat) (subseconds : Int) : Except ε Int :=
  match fromDatetime date hour minute second with
  | .ok coarse => .ok (coarse + subseconds)
  | .error e => .error e

end Attotime

namespace Attotime

/-- Helper for the rounding error of `divRound`: the denominator-scaled
distance between `divRound a b * b` and `a` is under one and a half
denominators. -/
theorem divRound_err (a b : Int) (hb : 0 < b) :
    -(3 * b) < 2 * (divRound a b * b - a) ∧ 2 * (divRound a b * b - a) < 3 * b := by
  have h2 : b.tdiv 2 = b / 2 := Int.tdiv_eq_ediv hb.le (by norm_num)
  unfold divRound
  rw [h2]
  have h1 := Int.tdiv_add_tmod (a + b / 2) b
  have h3 := Int.tmod_lt_of_pos (a + b / 2) hb
  have h4 : -b < (a + b / 2).tmod b := by
    have h5 : (-(a + b / 2)).tmod b = -((a + b / 2).tmod b) := by
      rw [Int.tmod_def, Int.tmod_def, Int.neg_tdiv]; ring
    have h6 := Int.tmod_lt_of_pos (-(a + b / 2)) hb
    omega
  rw [mul_comm ((a + b / 2).tdiv b) b]
  generalize hw : b * ((a + b / 2).tdiv b) = w at h1 ⊢
  generalize hr : (a + b / 2).tmod b = r at h1 h3 h4
  omega

/-- `uniformIntoDatetime` in terms of Euclidean division and remainder: the
floor divisions all act on non-negative remainders, so they agree with `/`
and `%` on `Int`. -/
theorem uniformIntoDatetime_eq (epoch t : Int) :
    uniformIntoDatetime epoch t =
      (epoch + t / attosPerDay,
       t % attosPerDay / attosPerHour,
       t % attosPerDay % attosPerHour / attosPerMinute,
       t % attosPerDay % attosPerHour % attosPerMinute / attosPerSecond) := by
  have hD : (0:Int) < attosPerDay := by norm_num [attosPerDay]
  have hH : (0:Int) < attosPerHour := by norm_num [attosPerHour]
  have hM : (0:Int) < attosPerMinute := by norm_num [attosPerMinute]
  have hS : (0:Int) < attosPerSecond := by norm_num [attosPerSecond]
  have hsub : ∀ u x : Int, x - x / u * u = x % u := by
    intro u x; rw [Int.emod_def]; ring
  simp only [uniformIntoDatetime, floorTo, factorOut, truncateTo]
  rw [Int.fdiv_eq_ediv t hD.le]
  rw [Int.mul_tdiv_cancel (t / attosPerDay) hD.ne.symm]
  rw [hsub attosPerDay t]
  rw [Int.tdiv_eq_ediv (Int.emod_nonneg t hD.ne.symm) hH.le]
  rw [Int.mul_tdiv_cancel (t % attosPerDay / attosPerHour) hH.ne.symm]
  rw [hsub attosPerHour (t % attosPerDay)]
  rw [Int.tdiv_eq_ediv (Int.emod_nonneg (t % attosPerDay) hH.ne.symm) hM.le]
  rw [Int.mul_tdiv_cancel (t % attosPerDay % attosPerHour / attosPerMinute) hM.ne.symm]
  rw [hsub attosPerMinute (t % attosPerDay % attosPerHour)]
  rw [Int.fdiv_eq_ediv (t % attosPerDay % attosPerHour % attosPerMinute) hS.le]
  rw [Int.mul_tdiv_cancel (t % attosPerDay % attosPerHour % attosPerMinute / attosPerSecond)
    hS.ne.symm]

/-- C2: for every uniform time scale (any epoch), every day count and every
in-range time of day, `from_datetime` succeeds and `into_datetime` decomposes
the constructed time point back to exactly the same tuple. -/
theorem uniform_datetime_roundtrip (epoch date : Int) (hour minute second : Nat)
    (hh : hour < 24) (hm : minute < 60) (hs : second < 60) :
    ∃ t, uniformFromDatetime epoch date hour minute second = .ok t ∧
      uniformIntoDatetime epoch t = (date, (hour : Int), (minute : Int), (second : Int)) := by
  refine ⟨(hour : Int) * attosPerHour + (minute : Int) * attosPerMinute +
    (second : Int) * attosPerSecond + (date * attosPerDay - epoch * attosPerDay), ?_, ?_⟩
  · unfold uniformFromDatetime
    rw [if_neg (by omega)]
  · rw [uniformIntoDatetime_eq]
    simp only [Prod.mk.injEq]
    norm_num [attosPerDay, attosPerHour, attosPerMinute, attosPerSecond]
    refine ⟨?_, ?_, ?_, ?_⟩ <;> omega

/-- Witness for C2 at a concrete input. -/
theorem uniform_datetime_roundtrip_witness :
    ∃ t, uniformFromDatetime 2557 12500 (16 : Nat) (43 : Nat) (32 : Nat) = .ok t ∧
      uniformIntoDatetime 2557 t = (12500, (16 : Int), (43 : Int), (32 : Int)) :=
  uniform_datetime_roundtrip 2557 12500 16 43 32 (by decide) (by decide) (by decide)

/-- C1: for any two terrestrial time scales (constant-TAI-offset scales:
TAI, UTC, TT, GPST, BDT, QZSST, GLONASST) and any representable time point,
converting to the other scale and back yields exactly the original value. -/
theorem terrestrial_roundtrip_exact (a b : TerrestrialScale) (t : Int) :
    fromTimeScale b a (fromTimeScale a b t) = t := by
  unfold fromTimeScale
  split_ifs <;> ring

/-- C3: UTC construction from a civil date-time returns the invalid
time-of-day error exactly when `hour > 23` or `minute > 59` or `second > 60`;
a claimed 60th second on a date the leap second provider does not recognize
as a leap second day yields the non-leap-second error; in all other cases it
succeeds with hours + minutes + seconds + accumulated leap seconds before
the date + days since the UTC epoch. -/
theorem utc_from_datetime_spec (date : Int) (hour minute second : Nat) :
    (utcFromDatetime date hour minute second =
        .error (.invalidTimeOfDay hour minute second) ↔
      (23 < hour ∨ 59 < minute ∨ 60 < second)) ∧
    (hour ≤ 23 → minute ≤ 59 → second = 60 → (leapSecondsOnDate date).1 = false →
      utcFromDatetime date hour minute second =
        .error (.nonLeapSecondDateTime date hour minute second)) ∧
    (hour ≤ 23 → minute ≤ 59 → second ≤ 60 →
      (second = 60 → (leapSecondsOnDate date).1 = true) →
      utcFromDatetime date hour minute second =
        .ok ((hour : Int) * attosPerHour + (minute : Int) * attosPerMinute +
          (second : Int) * attosPerSecond + (leapSecondsOnDate date).2 * attosPerSecond +
          (date - utcEpochDays) * attosPerDay)) := by
  refine ⟨⟨?_, ?_⟩, ?_, ?_⟩
  · intro h
    by_contra hc
    unfold utcFromDatetime at h
    rw [if_neg hc] at h
    split_ifs at h
    all_goals simp at h
  · intro h
    unfold utcFromDatetime
    rw [if_pos h]
  · intro h1 h2 h3 h4
    unfold utcFromDatetime
    rw [if_neg (by omega), if_pos ⟨h3, h4⟩]
  · intro h1 h2 h3 h4
    unfold utcFromDatetime
    rw [if_neg (by omega), if_neg (by rintro ⟨hs, hf⟩; rw [h4 hs] at hf; cases hf)]

/-- `utcIntoDatetime` restated through `uniformIntoDatetime`: after
subtracting the applicable leap seconds, the decomposition is the uniform
one over the UTC epoch, with the leap-second case replaced by
`(previous day, 23, 59, 60)`. -/
theorem utcIntoDatetime_eq (t : Int) :
    utcIntoDatetime t =
      if (leapSecondsAtTime t).1 then
        ((uniformIntoDatetime utcEpochDays
            (t - (leapSecondsAtTime t).2 * attosPerSecond)).1 - 1, 23, 59, 60)
      else
        uniformIntoDatetime utcEpochDays (t - (leapSecondsAtTime t).2 * attosPerSecond) := by
  simp only [utcIntoDatetime, uniformIntoDatetime]

/-- C4: UTC decomposition subtracts the applicable cumulative leap seconds
and floor-divides into days, hours, minutes and seconds; exactly on a leap
second it returns `(previous day, 23, 59, 60)` instead of rolling over; and
for every leap-second day recorded in the static table, decomposing the
instant constructed from 23:59:60 of that day gives back that tuple. -/
theorem utc_into_datetime_spec (t : Int) :
    ((leapSecondsAtTime t).1 = true →
      utcIntoDatetime t =
        (utcEpochDays + (t - (leapSecondsAtTime t).2 * attosPerSecond) / attosPerDay - 1,
          23, 59, 60)) ∧
    ((leapSecondsAtTime t).1 = false →
      utcIntoDatetime t =
        (utcEpochDays + (t - (leapSecondsAtTime t).2 * attosPerSecond) / attosPerDay,
         (t - (leapSecondsAtTime t).2 * attosPerSecond) % attosPerDay / attosPerHour,
         (t - (leapSecondsAtTime t).2 * attosPerSecond) % attosPerDay % attosPerHour /
           attosPerMinute,
         (t - (leapSecondsAtTime t).2 * attosPerSecond) % attosPerDay % attosPerHour %
           attosPerMinute / attosPerSecond)) ∧
    (∀ d ∈ leapDayList,
      Except.map utcIntoDatetime (utcFromDatetime d 23 59 60) =
        .ok (d, 23, 59, 60)) := by
  refine ⟨?_, ?_, ?_⟩
  · intro h
    rw [utcIntoDatetime_eq, if_pos h, uniformIntoDatetime_eq]
  · intro h
    rw [utcIntoDatetime_eq, if_neg (by simp [h]), uniformIntoDatetime_eq]
  · decide

/-- Witness for C4 at a concrete input: the instant of the 2016-12-31 leap
second decomposes to the previous day at 23:59:60. -/
theorem utc_into_datetime_spec_witness :
    utcIntoDatetime (1420156836 * attosPerSecond) =
      (utcEpochDays +
        (1420156836 * attosPerSecond -
          (leapSecondsAtTime (1420156836 * attosPerSecond)).2 * attosPerSecond) / attosPerDay - 1,
        23, 59, 60) :=
  (utc_into_datetime_spec (1420156836 * attosPerSecond)).1 (by decide)

/-- Witness for C3 at a concrete input: the leap second at the end of
2016-12-31 (day 17166), 23:59:60, constructs successfully. -/
theorem utc_from_datetime_spec_witness :
    utcFromDatetime 17166 23 59 60 =
      .ok ((23 : Int) * attosPerHour + (59 : Int) * attosPerMinute +
        (60 : Int) * attosPerSecond + (leapSecondsOnDate 17166).2 * attosPerSecond +
        (17166 - utcEpochDays) * attosPerDay) :=
  (utc_from_datetime_spec 17166 23 59 60).2.2 (by decide) (by decide) (by decide)
    (fun _ => by decide)

/-- Value of the leap second table on the interval starting at day 17167. -/
theorem leapOn_ge17167 (d : Int) (h1 : 17167 ≤ d) :
    leapSecondsOnDate d = (false, 37) := by
  unfold leapSecondsOnDate
  rw [if_pos h1]

/-- Value of the leap second table on the interval starting at day 16617. -/
theorem leapOn_ge16617 (d : Int) (h1 : 16617 ≤ d) (h2 : d ≤ 17165) :
    leapSecondsOnDate d = (false, 36) := by
  unfold leapSecondsOnDate
  rw [if_neg (fun hh => absurd (le_trans hh h2) (by decide)),
    if_neg (fun hh => absurd (hh ▸ h2) (by decide)),
    if_pos h1]

/-- Value of the leap second table on the interval starting at day 15522. -/
theorem leapOn_ge15522 (d : Int) (h1 : 15522 ≤ d) (h2 : d ≤ 16615) :
    leapSecondsOnDate d = (false, 35) := by
  unfold leapSecondsOnDate
  rw [if_neg (fun hh => absurd (le_trans hh h2) (by decide)),
    if_neg (fun hh => absurd (hh ▸ h2) (by decide)),
    if_neg (fun hh => absurd (le_trans hh h2) (by decide)),
    if_neg (fun hh => absurd (hh ▸ h2) (by decide)),
    if_pos h1]

/-- Value of the leap second table on the interval starting at day 14245. -/
theorem leapOn_ge14245 (d : Int) (h1 : 14245 ≤ d) (h2 : d ≤ 15520) :
    leapSecondsOnDate d = (false, 34) := by
  unfold leapSecondsOnDate
  rw [if_neg (fun hh => absurd (le_trans hh h2) (by decide)),
    if_neg (fun hh => absurd (hh ▸ h2) (by decide)),
    if_neg (fun hh => absurd (le_trans hh h2) (by decide)),
    if_neg (fun hh => absurd (hh ▸ h2) (by decide)),
    if_neg (fun hh => absurd (le_trans hh h2) (by decide)),
    if_neg (fun hh => absurd (hh ▸ h2) (by decide)),
    if_pos h1]

/-- Value of the leap second table on the interval starting at day 13149. -/
theorem leapOn_ge13149 (d : Int) (h1 : 13149 ≤ d) (h2 : d ≤ 14243) :
    leapSecondsOnDate d = (false, 33) := by
  unfold leapSecondsOnDate
  rw [if_neg (fun hh => absurd (le_trans hh h2) (by decide)),
    if_neg (fun hh => absurd (hh ▸ h2) (by decide)),
    if_neg (fun hh => absurd (le_trans hh h2) (by decide)),
    if_neg (fun hh => absurd (hh ▸ h2) (by decide)),
    if_neg (fun hh => absurd (le_trans hh h2) (by decide)),
    if_neg (fun hh => absurd (hh ▸ h2) (by decide)),
    if_neg (fun hh => absurd (le_trans hh h2) (by decide)),
    if_neg (fun hh => absurd (hh ▸ h2) (by decide)),
    if_pos h1]

/-- Value of the leap second table on the interval starting at day 10592. -/
theorem leapOn_ge10592 (d : Int) (h1 : 10592 ≤ d) (h2 : d ≤ 13147) :
    leapSecondsOnDate d = (false, 32) := by
  unfold leapSecondsOnDate
  rw [if_neg (fun hh => absurd (le_trans hh h2) (by decide)),
    if_neg (fun hh => absurd (hh ▸ h2) (by decide)),
    if_neg (fun hh => absurd (le_trans hh h2) (by decide)),
    if_neg (fun hh => absurd (hh ▸ h2) (by decide)),
    if_neg (fun hh => absurd (le_trans hh h2) (by decide)),
    if_neg (fun hh => absurd (hh ▸ h2) (by decide)),
    if_neg (fun hh => absurd (le_trans hh h2) (by decide)),
    if_neg (fun hh => absurd (hh ▸ h2) (by decide)),
    if_neg (fun hh => absurd (le_trans hh h2) (by decide)),
    if_neg (fun hh => absurd (hh ▸ h2) (by decide)),
    if_pos h1]

/-- Value of the leap second table on the interval starting at day 10043. -/
theorem leapOn_ge10043 (d : Int) (h1 : 10043 ≤ d) (h2 : d ≤ 10590) :
    leapSecondsOnDate d = (false, 31) := by
  unfold leapSecondsOnDate
  rw [if_neg (fun hh => absurd (le_trans hh h2) (by decide)),
    if_neg (fun hh => absurd (hh ▸ h2) (by decide)),
    if_neg (fun hh => absurd (le_trans hh h2) (by decide)),
    if_neg (fun hh => absurd (hh ▸ h2) (by decide)),
    if_neg (fun hh => absurd (le_trans hh h2) (by decide)),
    if_neg (fun hh => absurd (hh ▸ h2) (by decide)),
    if_neg (fun hh => absurd (le_trans hh h2) (by decide)),
    if_neg (fun hh => absurd (hh ▸ h2) (by decide)),
    if_neg (fun hh => absurd (le_trans hh h2) (by decide)),
    if_neg (fun hh => absurd (hh ▸ h2) (by decide)),
    if_neg (fun hh => absurd (le_trans hh h2) (by decide)),
    if_neg (fun hh => absurd (hh ▸ h2) (by decide)),
    if_pos h1]

/-- Value of the leap second table on the interval starting at day 9496. -/
theorem leapOn_ge9496 (d : Int) (h1 : 9496 ≤ d) (h2 : d ≤ 10041) :
    leapSecondsOnDate d = (false, 30) := by
  unfold leapSecondsOnDate
  rw [if_neg (fun hh => absurd (le_trans hh h2) (by decide)),
    if_neg (fun hh => absurd (hh ▸ h2) (by decide)),
    if_neg (fun hh => absurd (le_trans hh h2) (by decide)),
    if_neg (fun hh => absurd (hh ▸ h2) (by decide)),
    if_neg (fun hh => absurd (le_trans hh h2) (by decide)),
    if_neg (fun hh => absurd (hh ▸ h2) (by decide)),
    if_neg (fun hh => absurd (le_trans hh h2) (by decide)),
    if_neg (fun hh => absurd (hh ▸ h2) (by decide)),
    if_neg (fun hh => absurd (le_trans hh h2) (by decide)),
    if_neg (fun hh => absurd (hh ▸ h2) (by decide)),
    if_neg (fun hh => absurd (le_trans hh h2) (by decide)),
    if_neg (fun hh => absurd (hh ▸ h2) (by decide)),
    if_neg (fun hh => absurd (le_trans hh h2) (by decide)),
    if_neg (fun hh => absurd (hh ▸ h2) (by decide)),
    if_pos h1]

/-- Value of the leap second table on the interval starting at day 8947. -/
theorem leapOn_ge8947 (d : Int) (h1 : 8947 ≤ d) (h2 : d ≤ 9494) :
    leapSecondsOnDate d = (false, 29) := by
  unfold leapSecondsOnDate
  rw [if_neg (fun hh => absurd (le_trans hh h2) (by decide)),
    if_neg (fun hh => absurd (hh ▸ h2) (by decide)),
    if_neg (fun hh => absurd (le_trans hh h2) (by decide)),
    if_neg (fun hh => absurd (hh ▸ h2) (by decide)),
    if_neg (fun hh => absurd (le_trans hh h2) (by decide)),
    if_neg (fun hh => absurd (hh ▸ h2) (by decide)),
    if_neg (fun hh => absurd (le_trans hh h2) (by decide)),
    if_neg (fun hh => absurd (hh ▸ h2) (by decide)),
    if_neg (fun hh => absurd (le_trans hh h2) (by decide)),
    if_neg (fun hh => absurd (hh ▸ h2) (by decide)),
    if_neg (fun hh => absurd (le_trans hh h2) (by decide)),
    if_neg (fun hh => absurd (hh ▸ h2) (by decide)),
    if_neg (fun hh => absurd (le_trans hh h2) (by decide)),
    if_neg (fun hh => absurd (hh ▸ h2) (by decide)),
    if_neg (fun hh => absurd (le_trans hh h2) (by decide)),
    if_neg (fun hh => absurd (hh ▸ h2) (by decide)),
    if_pos h1]

/-- Value of the leap second table on the interval starting at day 8582. -/
theorem leapOn_ge8582 (d : Int) (h1 : 8582 ≤ d) (h2 : d ≤ 8945) :
    leapSecondsOnDate d = (false, 28) := by
  unfold leapSecondsOnDate
  rw [if_neg (fun hh => absurd (le_trans hh h2) (by decide)),
    if_neg (fun hh => absurd (hh ▸ h2) (by decide)),
    if_neg (fun hh => absurd (le_trans hh h2) (by decide)),
    if_neg (fun hh => absurd (hh ▸ h2) (by decide)),
    if_neg (fun hh => absurd (le_trans hh h2) (by decide)),
    if_neg (fun hh => absurd (hh ▸ h2) (by decide)),
    if_neg (fun hh => absurd (le_trans hh h2) (by decide)),
    if_neg (fun hh => absurd (hh ▸ h2) (by decide)),
    if_neg (fun hh => absurd (le_trans hh h2) (by decide)),
    if_neg (fun hh => absurd (hh ▸ h2) (by decide)),
    if_neg (fun hh => absurd (le_trans hh h2) (by decide)),
    if_neg (fun hh => absurd (hh ▸ h2) (by decide)),
    if_neg (fun hh => absurd (le_trans hh h2) (by decide)),
    if_neg (fun hh => absurd (hh ▸ h2) (by decide)),
    if_neg (fun hh => absurd (le_trans hh h2) (by decide)),
    if_neg (fun hh => absurd (hh ▸ h2) (by decide)),
    if_neg (fun hh => absurd (le_trans hh h2) (by decide)),
    if_neg (fun hh => absurd (hh ▸ h2) (by decide)),
    if_pos h1]

/-- Value of the leap second table on the interval starting at day 8217. -/
theorem leapOn_ge8217 (d : Int) (h1 : 8217 ≤ d) (h2 : d ≤ 8580) :
    leapSecondsOnDate d = (false, 27) := by
  unfold leapSecondsOnDate
  rw [if_neg (fun hh => absurd (le_trans hh h2) (by decide)),
    if_neg (fun hh => absurd (hh ▸ h2) (by decide)),
    if_neg (fun hh => absurd (le_trans hh h2) (by decide)),
    if_neg (fun hh => absurd (hh ▸ h2) (by decide)),
    if_neg (fun hh => absurd (le_trans hh h2) (by decide)),
    if_neg (fun hh => absurd (hh ▸ h2) (by decide)),
    if_neg (fun hh => absurd (le_trans hh h2) (by decide)),
    if_neg (fun hh => absurd (hh ▸ h2) (by decide)),
    if_neg (fun hh => absurd (le_trans hh h2) (by decide)),
    if_neg (fun hh => absurd (hh ▸ h2) (by decide)),
    if_neg (fun hh => absurd (le_trans hh h2) (by decide)),
    if_neg (fun hh => absurd (hh ▸ h2) (by decide)),
    if_neg (fun hh => absurd (le_trans hh h2) (by decide)),
    if_neg (fun hh => absurd (hh ▸ h2) (by decide)),
    if_neg (fun hh => absurd (le_trans hh h2) (by decide)),
    if_neg (fun hh => absurd (hh ▸ h2) (by decide)),
    if_neg (fun hh => absurd (le_trans hh h2) (by decide)),
    if_neg (fun hh => absurd (hh ▸ h2) (by decide)),
    if_neg (fun hh => absurd (le_trans hh h2) (by decide)),
    if_neg (fun hh => absurd (hh ▸ h2) (by decide)),
    if_pos h1]

/-- Value of the leap second table on the interval starting at day 7670. -/
theorem leapOn_ge7670 (d : Int) (h1 : 7670 ≤ d) (h2 : d ≤ 8215) :
    leapSecondsOnDate d = (false, 26) := by
  unfold leapSecondsOnDate
  rw [if_neg (fun hh => absurd (le_trans hh h2) (by decide)),
    if_neg (fun hh => absurd (hh ▸ h2) (by decide)),
    if_neg (fun hh => absurd (le_trans hh h2) (by decide)),
    if_neg (fun hh => absurd (hh ▸ h2) (by decide)),
    if_neg (fun hh => absurd (le_trans hh h2) (by decide)),
    if_neg (fun hh => absurd (hh ▸ h2) (by decide)),
    if_neg (fun hh => absurd (le_trans hh h2) (by decide)),
    if_neg (fun hh => absurd (hh ▸ h2) (by decide)),
    if_neg (fun hh => absurd (le_trans hh h2) (by decide)),
    if_neg (fun hh => absurd (hh ▸ h2) (by decide)),
    if_neg (fun hh => absurd (le_trans hh h2) (by decide)),
    if_neg (fun hh => absurd (hh ▸ h2) (by decide)),
    if_neg (fun hh => absurd (le_trans hh h2) (by decide)),
    if_neg (fun hh => absurd (hh ▸ h2) (by decide)),
    if_neg (fun hh => absurd (le_trans hh h2) (by decide)),
    if_neg (fun hh => absurd (hh ▸ h2) (by decide)),
    if_neg (fun hh => absurd (le_trans hh h2) (by decide)),
    if_neg (fun hh => absurd (hh ▸ h2) (by decide)),
    if_neg (fun hh => absurd (le_trans hh h2) (by decide)),
    if_neg (fun hh => absurd (hh ▸ h2) (by decide)),
    if_neg (fun hh => absurd (le_trans hh h2) (by decide)),
    if_neg (fun hh => absurd (hh ▸ h2) (by decide)),
    if_pos h1]

/-- Value of the leap second table on the interval starting at day 7305. -/
theorem leapOn_ge7305 (d : Int) (h1 : 7305 ≤ d) (h2 : d ≤ 7668) :
    leapSecondsOnDate d = (false, 25) := by
  unfold leapSecondsOnDate
  rw [if_neg (fun hh => absurd (le_trans hh h2) (by decide)),
    if_neg (fun hh => absurd (hh ▸ h2) (by decide)),
    if_neg (fun hh => absurd (le_trans hh h2) (by decide)),
    if_neg (fun hh => absurd (hh ▸ h2) (by decide)),
    if_neg (fun hh => absurd (le_trans hh h2) (by decide)),
    if_neg (fun hh => absurd (hh ▸ h2) (by decide)),
    if_neg (fun hh => absurd (le_trans hh h2) (by decide)),
    if_neg (fun hh => absurd (hh ▸ h2) (by decide)),
    if_neg (fun hh => absurd (le_trans hh h2) (by decide)),
    if_neg (fun hh => absurd (hh ▸ h2) (by decide)),
    if_neg (fun hh => absurd (le_trans hh h2) (by decide)),
    if_neg (fun hh => absurd (hh ▸ h2) (by decide)),
    if_neg (fun hh => absurd (le_trans hh h2) (by decide)),
    if_neg (fun hh => absurd (hh ▸ h2) (by decide)),
    if_neg (fun hh => absurd (le_trans hh h2) (by decide)),
    if_neg (fun hh => absurd (hh ▸ h2) (by decide)),
    if_neg (fun hh => absurd (le_trans hh h2) (by decide)),
    if_neg (fun hh => absurd (hh ▸ h2) (by decide)),
    if_neg (fun hh => absurd (le_trans hh h2) (by decide)),
    if_neg (fun hh => absurd (hh ▸ h2) (by decide)),
    if_neg (fun hh => absurd (le_trans hh h2) (by decide)),
    if_neg (fun hh => absurd (hh ▸ h2) (by decide)),
    if_neg (fun hh => absurd (le_trans hh h2) (by decide)),
    if_neg (fun hh => absurd (hh ▸ h2) (by decide)),
    if_pos h1]

/-- Value of the leap second table on the interval starting at day 6574. -/
theorem leapOn_ge6574 (d : Int) (h1 : 6574 ≤ d) (h2 : d ≤ 7303) :
    leapSecondsOnDate d = (false, 24) := by
  unfold leapSecondsOnDate
  rw [if_neg (fun hh => absurd (le_trans hh h2) (by decide)),
    if_neg (fun hh => absurd (hh ▸ h2) (by decide)),
    if_neg (fun hh => absurd (le_trans hh h2) (by decide)),
    if_neg (fun hh => absurd (hh ▸ h2) (by decide)),
    if_neg (fun hh => absurd (le_trans hh h2) (by decide)),
    if_neg (fun hh => absurd (hh ▸ h2) (by decide)),
    if_neg (fun hh => absurd (le_trans hh h2) (by decide)),
    if_neg (fun hh => absurd (hh ▸ h2) (by decide)),
    if_neg (fun hh => absurd (le_trans hh h2) (by decide)),
    if_neg (fun hh => absurd (hh ▸ h2) (by decide)),
    if_neg (fun hh => absurd (le_trans hh h2) (by decide)),
    if_neg (fun hh => absurd (hh ▸ h2) (by decide)),
    if_neg (fun hh => absurd (le_trans hh h2) (by decide)),
    if_neg (fun hh => absurd (hh ▸ h2) (by decide)),
    if_neg (fun hh => absurd (le_trans hh h2) (by decide)),
    if_neg (fun hh => absurd (hh ▸ h2) (by decide)),
    if_neg (fun hh => absurd (le_trans hh h2) (by decide)),
    if_neg (fun hh => absurd (hh ▸ h2) (by decide)),
    if_neg (fun hh => absurd (le_trans hh h2) (by decide)),
    if_neg (fun hh => absurd (hh ▸ h2) (by decide)),
    if_neg (fun hh => absurd (le_trans hh h2) (by decide)),
    if_neg (fun hh => absurd (hh ▸ h2) (by decide)),
    if_neg (fun hh => absurd (le_trans hh h2) (by decide)),
    if_neg (fun hh => absurd (hh ▸ h2) (by decide)),
    if_neg (fun hh => absurd (le_trans hh h2) (by decide)),
    if_neg (fun hh => absurd (hh ▸ h2) (by decide)),
    if_pos h1]

/-- Value of the leap second table on the interval starting at day 5660. -/
theorem leapOn_ge5660 (d : Int) (h1 : 5660 ≤ d) (h2 : d ≤ 6572) :
    leapSecondsOnDate d = (false, 23) := by
  unfold leapSecondsOnDate
  rw [if_neg (fun hh => absurd (le_trans hh h2) (by decide)),
    if_neg (fun hh => absurd (hh ▸ h2) (by decide)),
    if_neg (fun hh => absurd (le_trans hh h2) (by decide)),
    if_neg (fun hh => absurd (hh ▸ h2) (by decide)),
    if_neg (fun hh => absurd (le_trans hh h2) (by decide)),
    if_neg (fun hh => absurd (hh ▸ h2) (by decide)),
    if_neg (fun hh => absurd (le_trans hh h2) (by decide)),
    if_neg (fun hh => absurd (hh ▸ h2) (by decide)),
    if_neg (fun hh => absurd (le_trans hh h2) (by decide)),
    if_neg (fun hh => absurd (hh ▸ h2) (by decide)),
    if_neg (fun hh => absurd (le_trans hh h2) (by decide)),
    if_neg (fun hh => absurd (hh ▸ h2) (by decide)),
    if_neg (fun hh => absurd (le_trans hh h2) (by decide)),
    if_neg (fun hh => absurd (hh ▸ h2) (by decide)),
    if_neg (fun hh => absurd (le_trans hh h2) (by decide)),
    if_neg (fun hh => absurd (hh ▸ h2) (by decide)),
    if_neg (fun hh => absurd (le_trans hh h2) (by decide)),
    if_neg (fun hh => absurd (hh ▸ h2) (by decide)),
    if_neg (fun hh => absurd (le_trans hh h2) (by decide)),
    if_neg (fun hh => absurd (hh ▸ h2) (by decide)),
    if_neg (fun hh => absurd (le_trans hh h2) (by decide)),
    if_neg (fun hh => absurd (hh ▸ h2) (by decide)),
    if_neg (fun hh => absurd (le_trans hh h2) (by decide)),
    if_neg (fun hh => absurd (hh ▸ h2) (by decide)),
    if_neg (fun hh => absurd (le_trans hh h2) (by decide)),
    if_neg (fun hh => absurd (hh ▸ h2) (by decide)),
    if_neg (fun hh => absurd (le_trans hh h2) (by decide)),
    if_neg (fun hh => absurd (hh ▸ h2) (by decide)),
    if_pos h1]

/-- Value of the leap second table on the interval starting at day 4929. -/
theorem leapOn_ge4929 (d : Int) (h1 : 4929 ≤ d) (h2 : d ≤ 5658) :
    leapSecondsOnDate d = (false, 22) := by
  unfold leapSecondsOnDate
  rw [if_neg (fun hh => absurd (le_trans hh h2) (by decide)),
    if_neg (fun hh => absurd (hh ▸ h2) (by decide)),
    if_neg (fun hh => absurd (le_trans hh h2) (by decide)),
    if_neg (fun hh => absurd (hh ▸ h2) (by decide)),
    if_neg (fun hh => absurd (le_trans hh h2) (by decide)),
    if_neg (fun hh => absurd (hh ▸ h2) (by decide)),
    if_neg (fun hh => absurd (le_trans hh h2) (by decide)),
    if_neg (fun hh => absurd (hh ▸ h2) (by decide)),
    if_neg (fun hh => absurd (le_trans hh h2) (by decide)),
    if_neg (fun hh => absurd (hh ▸ h2) (by decide)),
    if_neg (fun hh => absurd (le_trans hh h2) (by decide)),
    if_neg (fun hh => absurd (hh ▸ h2) (by decide)),
    if_neg (fun hh => absurd (le_trans hh h2) (by decide)),
    if_neg (fun hh => absurd (hh ▸ h2) (by decide)),
    if_neg (fun hh => absurd (le_trans hh h2) (by decide)),
    if_neg (fun hh => absurd (hh ▸ h2) (by decide)),
    if_neg (fun hh => absurd (le_trans hh h2) (by decide)),
    if_neg (fun hh => absurd (hh ▸ h2) (by decide)),
    if_neg (fun hh => absurd (le_trans hh h2) (by decide)),
    if_neg (fun hh => absurd (hh ▸ h2) (by decide)),
    if_neg (fun hh => absurd (le_trans hh h2) (by decide)),
    if_neg (fun hh => absurd (hh ▸ h2) (by decide)),
    if_neg (fun hh => absurd (le_trans hh h2) (by decide)),
    if_neg (fun hh => absurd (hh ▸ h2) (by decide)),
    if_neg (fun hh => absurd (le_trans hh h2) (by decide)),
    if_neg (fun hh => absurd (hh ▸ h2) (by decide)),
    if_neg (fun hh => absurd (le_trans hh h2) (by decide)),
    if_neg (fun hh => absurd (hh ▸ h2) (by decide)),
    if_neg (fun hh => absurd (le_trans hh h2) (by decide)),
    if_neg (fun hh => absurd (hh ▸ h2) (by decide)),
    if_pos h1]

/-- Value of the leap second table on the interval starting at day 4564. -/
theorem leapOn_ge4564 (d : Int) (h1 : 4564 ≤ d) (h2 : d ≤ 4927) :
    leapSecondsOnDate d = (false, 21) := by
  unfold leapSecondsOnDate
  rw [if_neg (fun hh => absurd (le_trans hh h2) (by decide)),
    if_neg (fun hh => absurd (hh ▸ h2) (by decide)),
    if_neg (fun hh => absurd (le_trans hh h2) (by decide)),
    if_neg (fun hh => absurd (hh ▸ h2) (by decide)),
    if_neg (fun hh => absurd (le_trans hh h2) (by decide)),
    if_neg (fun hh => absurd (hh ▸ h2) (by decide)),
    if_neg (fun hh => absurd (le_trans hh h2) (by decide)),
    if_neg (fun hh => absurd (hh ▸ h2) (by decide)),
    if_neg (fun hh => absurd (le_trans hh h2) (by decide)),
    if_neg (fun hh => absurd (hh ▸ h2) (by decide)),
    if_neg (fun hh => absurd (le_trans hh h2) (by decide)),
    if_neg (fun hh => absurd (hh ▸ h2) (by decide)),
    if_neg (fun hh => absurd (le_trans hh h2) (by decide)),
    if_neg (fun hh => absurd (hh ▸ h2) (by decide)),
    if_neg (fun hh => absurd (le_trans hh h2) (by decide)),
    if_neg (fun hh => absurd (hh ▸ h2) (by decide)),
    if_neg (fun hh => absurd (le_trans hh h2) (by decide)),
    if_neg (fun hh => absurd (hh ▸ h2) (by decide)),
    if_neg (fun hh => absurd (le_trans hh h2) (by decide)),
    if_neg (fun hh => absurd (hh ▸ h2) (by decide)),
    if_neg (fun hh => absurd (le_trans hh h2) (by decide)),
    if_neg (fun hh => absurd (hh ▸ h2) (by decide)),
    if_neg (fun hh => absurd (le_trans hh h2) (by decide)),
    if_neg (fun hh => absurd (hh ▸ h2) (by decide)),
    if_neg (fun hh => absurd (le_trans hh h2) (by decide)),
    if_neg (fun hh => absurd (hh ▸ h2) (by decide)),
    if_neg (fun hh => absurd (le_trans hh h2) (by decide)),
    if_neg (fun hh => absurd (hh ▸ h2) (by decide)),
    if_neg (fun hh => absurd (le_trans hh h2) (by decide)),
    if_neg (fun hh => absurd (hh ▸ h2) (by decide)),
    if_neg (fun hh => absurd (le_trans hh h2) (by decide)),
    if_neg (fun hh => absurd (hh ▸ h2) (by decide)),
    if_pos h1]

/-- Value of the leap second table on the interval starting at day 4199. -/
theorem leapOn_ge4199 (d : Int) (h1 : 4199 ≤ d) (h2 : d ≤ 4562) :
    leapSecondsOnDate d = (false, 20) := by
  unfold leapSecondsOnDate
  rw [if_neg (fun hh => absurd (le_trans hh h2) (by decide)),
    if_neg (fun hh => absurd (hh ▸ h2) (by decide)),
    if_neg (fun hh => absurd (le_trans hh h2) (by decide)),
    if_neg (fun hh => absurd (hh ▸ h2) (by decide)),
    if_neg (fun hh => absurd (le_trans hh h2) (by decide)),
    if_neg (fun hh => absurd (hh ▸ h2) (by decide)),
    if_neg (fun hh => absurd (le_trans hh h2) (by decide)),
    if_neg (fun hh => absurd (hh ▸ h2) (by decide)),
    if_neg (fun hh => absurd (le_trans hh h2) (by decide)),
    if_neg (fun hh => absurd (hh ▸ h2) (by decide)),
    if_neg (fun hh => absurd (le_trans hh h2) (by decide)),
    if_neg (fun hh => absurd (hh ▸ h2) (by decide)),
    if_neg (fun hh => absurd (le_trans hh h2) (by decide)),
    if_neg (fun hh => absurd (hh ▸ h2) (by decide)),
    if_neg (fun hh => absurd (le_trans hh h2) (by decide)),
    if_neg (fun hh => absurd (hh ▸ h2) (by decide)),
    if_neg (fun hh => absurd (le_trans hh h2) (by decide)),
    if_neg (fun hh => absurd (hh ▸ h2) (by decide)),
    if_neg (fun hh => absurd (le_trans hh h2) (by decide)),
    if_neg (fun hh => absurd (hh ▸ h2) (by decide)),
    if_neg (fun hh => absurd (le_trans hh h2) (by decide)),
    if_neg (fun hh => absurd (hh ▸ h2) (by decide)),
    if_neg (fun hh => absurd (le_trans hh h2) (by decide)),
    if_neg (fun hh => absurd (hh ▸ h2) (by decide)),
    if_neg (fun hh => absurd (le_trans hh h2) (by decide)),
    if_neg (fun hh => absurd (hh ▸ h2) (by decide)),
    if_neg (fun hh => absurd (le_trans hh h2) (by decide)),
    if_neg (fun hh => absurd (hh ▸ h2) (by decide)),
    if_neg (fun hh => absurd (le_trans hh h2) (by decide)),
    if_neg (fun hh => absurd (hh ▸ h2) (by decide)),
    if_neg (fun hh => absurd (le_trans hh h2) (by decide)),
    if_neg (fun hh => absurd (hh ▸ h2) (by decide)),
    if_neg (fun hh => absurd (le_trans hh h2) (by decide)),
    if_neg (fun hh => absurd (hh ▸ h2) (by decide)),
    if_pos h1]

/-- Value of the leap second table on the interval starting at day 3652. -/
theorem leapOn_ge3652 (d : Int) (h1 : 3652 ≤ d) (h2 : d ≤ 4197) :
    leapSecondsOnDate d = (false, 19) := by
  unfold leapSecondsOnDate
  rw [if_neg (fun hh => absurd (le_trans hh h2) (by decide)),
    if_neg (fun hh => absurd (hh ▸ h2) (by decide)),
    if_neg (fun hh => absurd (le_trans hh h2) (by decide)),
    if_neg (fun hh => absurd (hh ▸ h2) (by decide)),
    if_neg (fun hh => absurd (le_trans hh h2) (by decide)),
    if_neg (fun hh => absurd (hh ▸ h2) (by decide)),
    if_neg (fun hh => absurd (le_trans hh h2) (by decide)),
    if_neg (fun hh => absurd (hh ▸ h2) (by decide)),
    if_neg (fun hh => absurd (le_trans hh h2) (by decide)),
    if_neg (fun hh => absurd (hh ▸ h2) (by decide)),
    if_neg (fun hh => absurd (le_trans hh h2) (by decide)),
    if_neg (fun hh => absurd (hh ▸ h2) (by decide)),
    if_neg (fun hh => absurd (le_trans hh h2) (by decide)),
    if_neg (fun hh => absurd (hh ▸ h2) (by decide)),
    if_neg (fun hh => absurd (le_trans hh h2) (by decide)),
    if_neg (fun hh => absurd (hh ▸ h2) (by decide)),
    if_neg (fun hh => absurd (le_trans hh h2) (by decide)),
    if_neg (fun hh => absurd (hh ▸ h2) (by decide)),
    if_neg (fun hh => absurd (le_trans hh h2) (by decide)),
    if_neg (fun hh => absurd (hh ▸ h2) (by decide)),
    if_neg (fun hh => absurd (le_trans hh h2) (by decide)),
    if_neg (fun hh => absurd (hh ▸ h2) (by decide)),
    if_neg (fun hh => absurd (le_trans hh h2) (by decide)),
    if_neg (fun hh => absurd (hh ▸ h2) (by decide)),
    if_neg (fun hh => absurd (le_trans hh h2) (by decide)),
    if_neg (fun hh => absurd (hh ▸ h2) (by decide)),
    if_neg (fun hh => absurd (le_trans hh h2) (by decide)),
    if_neg (fun hh => absurd (hh ▸ h2) (by decide)),
    if_neg (fun hh => absurd (le_trans hh h2) (by decide)),
    if_neg (fun hh => absurd (hh ▸ h2) (by decide)),
    if_neg (fun hh => absurd (le_trans hh h2) (by decide)),
    if_neg (fun hh => absurd (hh ▸ h2) (by decide)),
    if_neg (fun hh => absurd (le_trans hh h2) (by decide)),
    if_neg (fun hh => absurd (hh ▸ h2) (by decide)),
    if_neg (fun hh => absurd (le_trans hh h2) (by decide)),
    if_neg (fun hh => absurd (hh ▸ h2) (by decide)),
    if_pos h1]

/-- Value of the leap second table on the interval starting at day 3287. -/
theorem leapOn_ge3287 (d : Int) (h1 : 3287 ≤ d) (h2 : d ≤ 3650) :
    leapSecondsOnDate d = (false, 18) := by
  unfold leapSecondsOnDate
  rw [if_neg (fun hh => absurd (le_trans hh h2) (by decide)),
    if_neg (fun hh => absurd (hh ▸ h2) (by decide)),
    if_neg (fun hh => absurd (le_trans hh h2) (by decide)),
    if_neg (fun hh => absurd (hh ▸ h2) (by decide)),
    if_neg (fun hh => absurd (le_trans hh h2) (by decide)),
    if_neg (fun hh => absurd (hh ▸ h2) (by decide)),
    if_neg (fun hh => absurd (le_trans hh h2) (by decide)),
    if_neg (fun hh => absurd (hh ▸ h2) (by decide)),
    if_neg (fun hh => absurd (le_trans hh h2) (by decide)),
    if_neg (fun hh => absurd (hh ▸ h2) (by decide)),
    if_neg (fun hh => absurd (le_trans hh h2) (by decide)),
    if_neg (fun hh => absurd (hh ▸ h2) (by decide)),
    if_neg (fun hh => absurd (le_trans hh h2) (by decide)),
    if_neg (fun hh => absurd (hh ▸ h2) (by decide)),
    if_neg (fun hh => absurd (le_trans hh h2) (by decide)),
    if_neg (fun hh => absurd (hh ▸ h2) (by decide)),
    if_neg (fun hh => absurd (le_trans hh h2) (by decide)),
    if_neg (fun hh => absurd (hh ▸ h2) (by decide)),
    if_neg (fun hh => absurd (le_trans hh h2) (by decide)),
    if_neg (fun hh => absurd (hh ▸ h2) (by decide)),
    if_neg (fun hh => absurd (le_trans hh h2) (by decide)),
    if_neg (fun hh => absurd (hh ▸ h2) (by decide)),
    if_neg (fun hh => absurd (le_trans hh h2) (by decide)),
    if_neg (fun hh => absurd (hh ▸ h2) (by decide)),
    if_neg (fun hh => absurd (le_trans hh h2) (by decide)),
    if_neg (fun hh => absurd (hh ▸ h2) (by decide)),
    if_neg (fun hh => absurd (le_trans hh h2) (by decide)),
    if_neg (fun hh => absurd (hh ▸ h2) (by decide)),
    if_neg (fun hh => absurd (le_trans hh h2) (by decide)),
    if_neg (fun hh => absurd (hh ▸ h2) (by decide)),
    if_neg (fun hh => absurd (le_trans hh h2) (by decide)),
    if_neg (fun hh => absurd (hh ▸ h2) (by decide)),
    if_neg (fun hh => absurd (le_trans hh h2) (by decide)),
    if_neg (fun hh => absurd (hh ▸ h2) (by decide)),
    if_neg (fun hh => absurd (le_trans hh h2) (by decide)),
    if_neg (fun hh => absurd (hh ▸ h2) (by decide)),
    if_neg (fun hh => absurd (le_trans hh h2) (by decide)),
    if_neg (fun hh => absurd (hh ▸ h2) (by decide)),
    if_pos h1]

/-- Value of the leap second table on the interval starting at day 2922. -/
theorem leapOn_ge2922 (d : Int) (h1 : 2922 ≤ d) (h2 : d ≤ 3285) :
    leapSecondsOnDate d = (false, 17) := by
  unfold leapSecondsOnDate
  rw [if_neg (fun hh => absurd (le_trans hh h2) (by decide)),
    if_neg (fun hh => absurd (hh ▸ h2) (by decide)),
    if_neg (fun hh => absurd (le_trans hh h2) (by decide)),
    if_neg (fun hh => absurd (hh ▸ h2) (by decide)),
    if_neg (fun hh => absurd (le_trans hh h2) (by decide)),
    if_neg (fun hh => absurd (hh ▸ h2) (by decide)),
    if_neg (fun hh => absurd (le_trans hh h2) (by decide)),
    if_neg (fun hh => absurd (hh ▸ h2) (by decide)),
    if_neg (fun hh => absurd (le_trans hh h2) (by decide)),
    if_neg (fun hh => absurd (hh ▸ h2) (by decide)),
    if_neg (fun hh => absurd (le_trans hh h2) (by decide)),
    if_neg (fun hh => absurd (hh ▸ h2) (by decide)),
    if_neg (fun hh => absurd (le_trans hh h2) (by decide)),
    if_neg (fun hh => absurd (hh ▸ h2) (by decide)),
    if_neg (fun hh => absurd (le_trans hh h2) (by decide)),
    if_neg (fun hh => absurd (hh ▸ h2) (by decide)),
    if_neg (fun hh => absurd (le_trans hh h2) (by decide)),
    if_neg (fun hh => absurd (hh ▸ h2) (by decide)),
    if_neg (fun hh => absurd (le_trans hh h2) (by decide)),
    if_neg (fun hh => absurd (hh ▸ h2) (by decide)),
    if_neg (fun hh => absurd (le_trans hh h2) (by decide)),
    if_neg (fun hh => absurd (hh ▸ h2) (by decide)),
    if_neg (fun hh => absurd (le_trans hh h2) (by decide)),
    if_neg (fun hh => absurd (hh ▸ h2) (by decide)),
    if_neg (fun hh => absurd (le_trans hh h2) (by decide)),
    if_neg (fun hh => absurd (hh ▸ h2) (by decide)),
    if_neg (fun hh => absurd (le_trans hh h2) (by decide)),
    if_neg (fun hh => absurd (hh ▸ h2) (by decide)),
    if_neg (fun hh => absurd (le_trans hh h2) (by decide)),
    if_neg (fun hh => absurd (hh ▸ h2) (by decide)),
    if_neg (fun hh => absurd (le_trans hh h2) (by decide)),
    if_neg (fun hh => absurd (hh ▸ h2) (by decide)),
    if_neg (fun hh => absurd (le_trans hh h2) (by decide)),
    if_neg (fun hh => absurd (hh ▸ h2) (by decide)),
    if_neg (fun hh => absurd (le_trans hh h2) (by decide)),
    if_neg (fun hh => absurd (hh ▸ h2) (by decide)),
    if_neg (fun hh => absurd (le_trans hh h2) (by decide)),
    if_neg (fun hh => absurd (hh ▸ h2) (by decide)),
    if_neg (fun hh => absurd (le_trans hh h2) (by decide)),
    if_neg (fun hh => absurd (hh ▸ h2) (by decide)),
    if_pos h1]

/-- Value of the leap second table on the interval starting at day 2557. -/
theorem leapOn_ge2557 (d : Int) (h1 : 2557 ≤ d) (h2 : d ≤ 2920) :
    leapSecondsOnDate d = (false, 16) := by
  unfold leapSecondsOnDate
  rw [if_neg (fun hh => absurd (le_trans hh h2) (by decide)),
    if_neg (fun hh => absurd (hh ▸ h2) (by decide)),
    if_neg (fun hh => absurd (le_trans hh h2) (by decide)),
    if_neg (fun hh => absurd (hh ▸ h2) (by decide)),
    if_neg (fun hh => absurd (le_trans hh h2) (by decide)),
    if_neg (fun hh => absurd (hh ▸ h2) (by decide)),
    if_neg (fun hh => absurd (le_trans hh h2) (by decide)),
    if_neg (fun hh => absurd (hh ▸ h2) (by decide)),
    if_neg (fun hh => absurd (le_trans hh h2) (by decide)),
    if_neg (fun hh => absurd (hh ▸ h2) (by decide)),
    if_neg (fun hh => absurd (le_trans hh h2) (by decide)),
    if_neg (fun hh => absurd (hh ▸ h2) (by decide)),
    if_neg (fun hh => absurd (le_trans hh h2) (by decide)),
    if_neg (fun hh => absurd (hh ▸ h2) (by decide)),
    if_neg (fun hh => absurd (le_trans hh h2) (by decide)),
    if_neg (fun hh => absurd (hh ▸ h2) (by decide)),
    if_neg (fun hh => absurd (le_trans hh h2) (by decide)),
    if_neg (fun hh => absurd (hh ▸ h2) (by decide)),
    if_neg (fun hh => absurd (le_trans hh h2) (by decide)),
    if_neg (fun hh => absurd (hh ▸ h2) (by decide)),
    if_neg (fun hh => absurd (le_trans hh h2) (by decide)),
    if_neg (fun hh => absurd (hh ▸ h2) (by decide)),
    if_neg (fun hh => absurd (le_trans hh h2) (by decide)),
    if_neg (fun hh => absurd (hh ▸ h2) (by decide)),
    if_neg (fun hh => absurd (le_trans hh h2) (by decide)),
    if_neg (fun hh => absurd (hh ▸ h2) (by decide)),
    if_neg (fun hh => absurd (le_trans hh h2) (by decide)),
    if_neg (fun hh => absurd (hh ▸ h2) (by decide)),
    if_neg (fun hh => absurd (le_trans hh h2) (by decide)),
    if_neg (fun hh => absurd (hh ▸ h2) (by decide)),
    if_neg (fun hh => absurd (le_trans hh h2) (by decide)),
    if_neg (fun hh => absurd (hh ▸ h2) (by decide)),
    if_neg (fun hh => absurd (le_trans hh h2) (by decide)),
    if_neg (fun hh => absurd (hh ▸ h2) (by decide)),
    if_neg (fun hh => absurd (le_trans hh h2) (by decide)),
    if_neg (fun hh => absurd (hh ▸ h2) (by decide)),
    if_neg (fun hh => absurd (le_trans hh h2) (by decide)),
    if_neg (fun hh => absurd (hh ▸ h2) (by decide)),
    if_neg (fun hh => absurd (le_trans hh h2) (by decide)),
    if_neg (fun hh => absurd (hh ▸ h2) (by decide)),
    if_neg (fun hh => absurd (le_trans hh h2) (by decide)),
    if_neg (fun hh => absurd (hh ▸ h2) (by decide)),
    if_pos h1]

/-- Value of the leap second table on the interval starting at day 2191. -/
theorem leapOn_ge2191 (d : Int) (h1 : 2191 ≤ d) (h2 : d ≤ 2555) :
    leapSecondsOnDate d = (false, 15) := by
  unfold leapSecondsOnDate
  rw [if_neg (fun hh => absurd (le_trans hh h2) (by decide)),
    if_neg (fun hh => absurd (hh ▸ h2) (by decide)),
    if_neg (fun hh => absurd (le_trans hh h2) (by decide)),
    if_neg (fun hh => absurd (hh ▸ h2) (by decide)),
    if_neg (fun hh => absurd (le_trans hh h2) (by decide)),
    if_neg (fun hh => absurd (hh ▸ h2) (by decide)),
    if_neg (fun hh => absurd (le_trans hh h2) (by decide)),
    if_neg (fun hh => absurd (hh ▸ h2) (by decide)),
    if_neg (fun hh => absurd (le_trans hh h2) (by decide)),
    if_neg (fun hh => absurd (hh ▸ h2) (by decide)),
    if_neg (fun hh => absurd (le_trans hh h2) (by decide)),
    if_neg (fun hh => absurd (hh ▸ h2) (by decide)),
    if_neg (fun hh => absurd (le_trans hh h2) (by decide)),
    if_neg (fun hh => absurd (hh ▸ h2) (by decide)),
    if_neg (fun hh => absurd (le_trans hh h2) (by decide)),
    if_neg (fun hh => absurd (hh ▸ h2) (by decide)),
    if_neg (fun hh => absurd (le_trans hh h2) (by decide)),
    if_neg (fun hh => absurd (hh ▸ h2) (by decide)),
    if_neg (fun hh => absurd (le_trans hh h2) (by decide)),
    if_neg (fun hh => absurd (hh ▸ h2) (by decide)),
    if_neg (fun hh => absurd (le_trans hh h2) (by decide)),
    if_neg (fun hh => absurd (hh ▸ h2) (by decide)),
    if_neg (fun hh => absurd (le_trans hh h2) (by decide)),
    if_neg (fun hh => absurd (hh ▸ h2) (by decide)),
    if_neg (fun hh => absurd (le_trans hh h2) (by decide)),
    if_neg (fun hh => absurd (hh ▸ h2) (by decide)),
    if_neg (fun hh => absurd (le_trans hh h2) (by decide)),
    if_neg (fun hh => absurd (hh ▸ h2) (by decide)),
    if_neg (fun hh => absurd (le_trans hh h2) (by decide)),
    if_neg (fun hh => absurd (hh ▸ h2) (by decide)),
    if_neg (fun hh => absurd (le_trans hh h2) (by decide)),
    if_neg (fun hh => absurd (hh ▸ h2) (by decide)),
    if_neg (fun hh => absurd (le_trans hh h2) (by decide)),
    if_neg (fun hh => absurd (hh ▸ h2) (by decide)),
    if_neg (fun hh => absurd (le_trans hh h2) (by decide)),
    if_neg (fun hh => absurd (hh ▸ h2) (by decide)),
    if_neg (fun hh => absurd (le_trans hh h2) (by decide)),
    if_neg (fun hh => absurd (hh ▸ h2) (by decide)),
    if_neg (fun hh => absurd (le_trans hh h2) (by decide)),
    if_neg (fun hh => absurd (hh ▸ h2) (by decide)),
    if_neg (fun hh => absurd (le_trans hh h2) (by decide)),
    if_neg (fun hh => absurd (hh ▸ h2) (by decide)),
    if_neg (fun hh => absurd (le_trans hh h2) (by decide)),
    if_neg (fun hh => absurd (hh ▸ h2) (by decide)),
    if_pos h1]

/-- Value of the leap second table on the interval starting at day 1826. -/
theorem leapOn_ge1826 (d : Int) (h1 : 1826 ≤ d) (h2 : d ≤ 2189) :
    leapSecondsOnDate d = (false, 14) := by
  unfold leapSecondsOnDate
  rw [if_neg (fun hh => absurd (le_trans hh h2) (by decide)),
    if_neg (fun hh => absurd (hh ▸ h2) (by decide)),
    if_neg (fun hh => absurd (le_trans hh h2) (by decide)),
    if_neg (fun hh => absurd (hh ▸ h2) (by decide)),
    if_neg (fun hh => absurd (le_trans hh h2) (by decide)),
    if_neg (fun hh => absurd (hh ▸ h2) (by decide)),
    if_neg (fun hh => absurd (le_trans hh h2) (by decide)),
    if_neg (fun hh => absurd (hh ▸ h2) (by decide)),
    if_neg (fun hh => absurd (le_trans hh h2) (by decide)),
    if_neg (fun hh => absurd (hh ▸ h2) (by decide)),
    if_neg (fun hh => absurd (le_trans hh h2) (by decide)),
    if_neg (fun hh => absurd (hh ▸ h2) (by decide)),
    if_neg (fun hh => absurd (le_trans hh h2) (by decide)),
    if_neg (fun hh => absurd (hh ▸ h2) (by decide)),
    if_neg (fun hh => absurd (le_trans hh h2) (by decide)),
    if_neg (fun hh => absurd (hh ▸ h2) (by decide)),
    if_neg (fun hh => absurd (le_trans hh h2) (by decide)),
    if_neg (fun hh => absurd (hh ▸ h2) (by decide)),
    if_neg (fun hh => absurd (le_trans hh h2) (by decide)),
    if_neg (fun hh => absurd (hh ▸ h2) (by decide)),
    if_neg (fun hh => absurd (le_trans hh h2) (by decide)),
    if_neg (fun hh => absurd (hh ▸ h2) (by decide)),
    if_neg (fun hh => absurd (le_trans hh h2) (by decide)),
    if_neg (fun hh => absurd (hh ▸ h2) (by decide)),
    if_neg (fun hh => absurd (le_trans hh h2) (by decide)),
    if_neg (fun hh => absurd (hh ▸ h2) (by decide)),
    if_neg (fun hh => absurd (le_trans hh h2) (by decide)),
    if_neg (fun hh => absurd (hh ▸ h2) (by decide)),
    if_neg (fun hh => absurd (le_trans hh h2) (by decide)),
    if_neg (fun hh => absurd (hh ▸ h2) (by decide)),
    if_neg (fun hh => absurd (le_trans hh h2) (by decide)),
    if_neg (fun hh => absurd (hh ▸ h2) (by decide)),
    if_neg (fun hh => absurd (le_trans hh h2) (by decide)),
    if_neg (fun hh => absurd (hh ▸ h2) (by decide)),
    if_neg (fun hh => absurd (le_trans hh h2) (by decide)),
    if_neg (fun hh => absurd (hh ▸ h2) (by decide)),
    if_neg (fun hh => absurd (le_trans hh h2) (by decide)),
    if_neg (fun hh => absurd (hh ▸ h2) (by decide)),
    if_neg (fun hh => absurd (le_trans hh h2) (by decide)),
    if_neg (fun hh => absurd (hh ▸ h2) (by decide)),
    if_neg (fun hh => absurd (le_trans hh h2) (by decide)),
    if_neg (fun hh => absurd (hh ▸ h2) (by decide)),
    if_neg (fun hh => absurd (le_trans hh h2) (by decide)),
    if_neg (fun hh => absurd (hh ▸ h2) (by decide)),
    if_neg (fun hh => absurd (le_trans hh h2) (by decide)),
    if_neg (fun hh => absurd (hh ▸ h2) (by decide)),
    if_pos h1]

/-- Value of the leap second table on the interval starting at day 1461. -/
theorem leapOn_ge1461 (d : Int) (h1 : 1461 ≤ d) (h2 : d ≤ 1824) :
    leapSecondsOnDate d = (false, 13) := by
  unfold leapSecondsOnDate
  rw [if_neg (fun hh => absurd (le_trans hh h2) (by decide)),
    if_neg (fun hh => absurd (hh ▸ h2) (by decide)),
    if_neg (fun hh => absurd (le_trans hh h2) (by decide)),
    if_neg (fun hh => absurd (hh ▸ h2) (by decide)),
    if_neg (fun hh => absurd (le_trans hh h2) (by decide)),
    if_neg (fun hh => absurd (hh ▸ h2) (by decide)),
    if_neg (fun hh => absurd (le_trans hh h2) (by decide)),
    if_neg (fun hh => absurd (hh ▸ h2) (by decide)),
    if_neg (fun hh => absurd (le_trans hh h2) (by decide)),
    if_neg (fun hh => absurd (hh ▸ h2) (by decide)),
    if_neg (fun hh => absurd (le_trans hh h2) (by decide)),
    if_neg (fun hh => absurd (hh ▸ h2) (by decide)),
    if_neg (fun hh => absurd (le_trans hh h2) (by decide)),
    if_neg (fun hh => absurd (hh ▸ h2) (by decide)),
    if_neg (fun hh => absurd (le_trans hh h2) (by decide)),
    if_neg (fun hh => absurd (hh ▸ h2) (by decide)),
    if_neg (fun hh => absurd (le_trans hh h2) (by decide)),
    if_neg (fun hh => absurd (hh ▸ h2) (by decide)),
    if_neg (fun hh => absurd (le_trans hh h2) (by decide)),
    if_neg (fun hh => absurd (hh ▸ h2) (by decide)),
    if_neg (fun hh => absurd (le_trans hh h2) (by decide)),
    if_neg (fun hh => absurd (hh ▸ h2) (by decide)),
    if_neg (fun hh => absurd (le_trans hh h2) (by decide)),
    if_neg (fun hh => absurd (hh ▸ h2) (by decide)),
    if_neg (fun hh => absurd (le_trans hh h2) (by decide)),
    if_neg (fun hh => absurd (hh ▸ h2) (by decide)),
    if_neg (fun hh => absurd (le_trans hh h2) (by decide)),
    if_neg (fun hh => absurd (hh ▸ h2) (by decide)),
    if_neg (fun hh => absurd (le_trans hh h2) (by decide)),
    if_neg (fun hh => absurd (hh ▸ h2) (by decide)),
    if_neg (fun hh => absurd (le_trans hh h2) (by decide)),
    if_neg (fun hh => absurd (hh ▸ h2) (by decide)),
    if_neg (fun hh => absurd (le_trans hh h2) (by decide)),
    if_neg (fun hh => absurd (hh ▸ h2) (by decide)),
    if_neg (fun hh => absurd (le_trans hh h2) (by decide)),
    if_neg (fun hh => absurd (hh ▸ h2) (by decide)),
    if_neg (fun hh => absurd (le_trans hh h2) (by decide)),
    if_neg (fun hh => absurd (hh ▸ h2) (by decide)),
    if_neg (fun hh => absurd (le_trans hh h2) (by decide)),
    if_neg (fun hh => absurd (hh ▸ h2) (by decide)),
    if_neg (fun hh => absurd (le_trans hh h2) (by decide)),
    if_neg (fun hh => absurd (hh ▸ h2) (by decide)),
    if_neg (fun hh => absurd (le_trans hh h2) (by decide)),
    if_neg (fun hh => absurd (hh ▸ h2) (by decide)),
    if_neg (fun hh => absurd (le_trans hh h2) (by decide)),
    if_neg (fun hh => absurd (hh ▸ h2) (by decide)),
    if_neg (fun hh => absurd (le_trans hh h2) (by decide)),
    if_neg (fun hh => absurd (hh ▸ h2) (by decide)),
    if_pos h1]

/-- Value of the leap second table on the interval starting at day 1096. -/
theorem leapOn_ge1096 (d : Int) (h1 : 1096 ≤ d) (h2 : d ≤ 1459) :
    leapSecondsOnDate d = (false, 12) := by
  unfold leapSecondsOnDate
  rw [if_neg (fun hh => absurd (le_trans hh h2) (by decide)),
    if_neg (fun hh => absurd (hh ▸ h2) (by decide)),
    if_neg (fun hh => absurd (le_trans hh h2) (by decide)),
    if_neg (fun hh => absurd (hh ▸ h2) (by decide)),
    if_neg (fun hh => absurd (le_trans hh h2) (by decide)),
    if_neg (fun hh => absurd (hh ▸ h2) (by decide)),
    if_neg (fun hh => absurd (le_trans hh h2) (by decide)),
    if_neg (fun hh => absurd (hh ▸ h2) (by decide)),
    if_neg (fun hh => absurd (le_trans hh h2) (by decide)),
    if_neg (fun hh => absurd (hh ▸ h2) (by decide)),
    if_neg (fun hh => absurd (le_trans hh h2) (by decide)),
    if_neg (fun hh => absurd (hh ▸ h2) (by decide)),
    if_neg (fun hh => absurd (le_trans hh h2) (by decide)),
    if_neg (fun hh => absurd (hh ▸ h2) (by decide)),
    if_neg (fun hh => absurd (le_trans hh h2) (by decide)),
    if_neg (fun hh => absurd (hh ▸ h2) (by decide)),
    if_neg (fun hh => absurd (le_trans hh h2) (by decide)),
    if_neg (fun hh => absurd (hh ▸ h2) (by decide)),
    if_neg (fun hh => absurd (le_trans hh h2) (by decide)),
    if_neg (fun hh => absurd (hh ▸ h2) (by decide)),
    if_neg (fun hh => absurd (le_trans hh h2) (by decide)),
    if_neg (fun hh => absurd (hh ▸ h2) (by decide)),
    if_neg (fun hh => absurd (le_trans hh h2) (by decide)),
    if_neg (fun hh => absurd (hh ▸ h2) (by decide)),
    if_neg (fun hh => absurd (le_trans hh h2) (by decide)),
    if_neg (fun hh => absurd (hh ▸ h2) (by decide)),
    if_neg (fun hh => absurd (le_trans hh h2) (by decide)),
    if_neg (fun hh => absurd (hh ▸ h2) (by decide)),
    if_neg (fun hh => absurd (le_trans hh h2) (by decide)),
    if_neg (fun hh => absurd (hh ▸ h2) (by decide)),
    if_neg (fun hh => absurd (le_trans hh h2) (by decide)),
    if_neg (fun hh => absurd (hh ▸ h2) (by decide)),
    if_neg (fun hh => absurd (le_trans hh h2) (by decide)),
    if_neg (fun hh => absurd (hh ▸ h2) (by decide)),
    if_neg (fun hh => absurd (le_trans hh h2) (by decide)),
    if_neg (fun hh => absurd (hh ▸ h2) (by decide)),
    if_neg (fun hh => absurd (le_trans hh h2) (by decide)),
    if_neg (fun hh => absurd (hh ▸ h2) (by decide)),
    if_neg (fun hh => absurd (le_trans hh h2) (by decide)),
    if_neg (fun hh => absurd (hh ▸ h2) (by decide)),
    if_neg (fun hh => absurd (le_trans hh h2) (by decide)),
    if_neg (fun hh => absurd (hh ▸ h2) (by decide)),
    if_neg (fun hh => absurd (le_trans hh h2) (by decide)),
    if_neg (fun hh => absurd (hh ▸ h2) (by decide)),
    if_neg (fun hh => absurd (le_trans hh h2) (by decide)),
    if_neg (fun hh => absurd (hh ▸ h2) (by decide)),
    if_neg (fun hh => absurd (le_trans hh h2) (by decide)),
    if_neg (fun hh => absurd (hh ▸ h2) (by decide)),
    if_neg (fun hh => absurd (le_trans hh h2) (by decide)),
    if_neg (fun hh => absurd (hh ▸ h2) (by decide)),
    if_pos h1]

/-- Value of the leap second table on the interval starting at day 912. -/
theorem leapOn_ge912 (d : Int) (h1 : 912 ≤ d) (h2 : d ≤ 1094) :
    leapSecondsOnDate d = (false, 11) := by
  unfold leapSecondsOnDate
  rw [if_neg (fun hh => absurd (le_trans hh h2) (by decide)),
    if_neg (fun hh => absurd (hh ▸ h2) (by decide)),
    if_neg (fun hh => absurd (le_trans hh h2) (by decide)),
    if_neg (fun hh => absurd (hh ▸ h2) (by decide)),
    if_neg (fun hh => absurd (le_trans hh h2) (by decide)),
    if_neg (fun hh => absurd (hh ▸ h2) (by decide)),
    if_neg (fun hh => absurd (le_trans hh h2) (by decide)),
    if_neg (fun hh => absurd (hh ▸ h2) (by decide)),
    if_neg (fun hh => absurd (le_trans hh h2) (by decide)),
    if_neg (fun hh => absurd (hh ▸ h2) (by decide)),
    if_neg (fun hh => absurd (le_trans hh h2) (by decide)),
    if_neg (fun hh => absurd (hh ▸ h2) (by decide)),
    if_neg (fun hh => absurd (le_trans hh h2) (by decide)),
    if_neg (fun hh => absurd (hh ▸ h2) (by decide)),
    if_neg (fun hh => absurd (le_trans hh h2) (by decide)),
    if_neg (fun hh => absurd (hh ▸ h2) (by decide)),
    if_neg (fun hh => absurd (le_trans hh h2) (by decide)),
    if_neg (fun hh => absurd (hh ▸ h2) (by decide)),
    if_neg (fun hh => absurd (le_trans hh h2) (by decide)),
    if_neg (fun hh => absurd (hh ▸ h2) (by decide)),
    if_neg (fun hh => absurd (le_trans hh h2) (by decide)),
    if_neg (fun hh => absurd (hh ▸ h2) (by decide)),
    if_neg (fun hh => absurd (le_trans hh h2) (by decide)),
    if_neg (fun hh => absurd (hh ▸ h2) (by decide)),
    if_neg (fun hh => absurd (le_trans hh h2) (by decide)),
    if_neg (fun hh => absurd (hh ▸ h2) (by decide)),
    if_neg (fun hh => absurd (le_trans hh h2) (by decide)),
    if_neg (fun hh => absurd (hh ▸ h2) (by decide)),
    if_neg (fun hh => absurd (le_trans hh h2) (by decide)),
    if_neg (fun hh => absurd (hh ▸ h2) (by decide)),
    if_neg (fun hh => absurd (le_trans hh h2) (by decide)),
    if_neg (fun hh => absurd (hh ▸ h2) (by decide)),
    if_neg (fun hh => absurd (le_trans hh h2) (by decide)),
    if_neg (fun hh => absurd (hh ▸ h2) (by decide)),
    if_neg (fun hh => absurd (le_trans hh h2) (by decide)),
    if_neg (fun hh => absurd (hh ▸ h2) (by decide)),
    if_neg (fun hh => absurd (le_trans hh h2) (by decide)),
    if_neg (fun hh => absurd (hh ▸ h2) (by decide)),
    if_neg (fun hh => absurd (le_trans hh h2) (by decide)),
    if_neg (fun hh => absurd (hh ▸ h2) (by decide)),
    if_neg (fun hh => absurd (le_trans hh h2) (by decide)),
    if_neg (fun hh => absurd (hh ▸ h2) (by decide)),
    if_neg (fun hh => absurd (le_trans hh h2) (by decide)),
    if_neg (fun hh => absurd (hh ▸ h2) (by decide)),
    if_neg (fun hh => absurd (le_trans hh h2) (by decide)),
    if_neg (fun hh => absurd (hh ▸ h2) (by decide)),
    if_neg (fun hh => absurd (le_trans hh h2) (by decide)),
    if_neg (fun hh => absurd (hh ▸ h2) (by decide)),
    if_neg (fun hh => absurd (le_trans hh h2) (by decide)),
    if_neg (fun hh => absurd (hh ▸ h2) (by decide)),
    if_neg (fun hh => absurd (le_trans hh h2) (by decide)),
    if_neg (fun hh => absurd (hh ▸ h2) (by decide)),
    if_pos h1]

/-- Value of the leap second table on the interval starting at day 730. -/
theorem leapOn_ge730 (d : Int) (h1 : 730 ≤ d) (h2 : d ≤ 910) :
    leapSecondsOnDate d = (false, 10) := by
  unfold leapSecondsOnDate
  rw [if_neg (fun hh => absurd (le_trans hh h2) (by decide)),
    if_neg (fun hh => absurd (hh ▸ h2) (by decide)),
    if_neg (fun hh => absurd (le_trans hh h2) (by decide)),
    if_neg (fun hh => absurd (hh ▸ h2) (by decide)),
    if_neg (fun hh => absurd (le_trans hh h2) (by decide)),
    if_neg (fun hh => absurd (hh ▸ h2) (by decide)),
    if_neg (fun hh => absurd (le_trans hh h2) (by decide)),
    if_neg (fun hh => absurd (hh ▸ h2) (by decide)),
    if_neg (fun hh => absurd (le_trans hh h2) (by decide)),
    if_neg (fun hh => absurd (hh ▸ h2) (by decide)),
    if_neg (fun hh => absurd (le_trans hh h2) (by decide)),
    if_neg (fun hh => absurd (hh ▸ h2) (by decide)),
    if_neg (fun hh => absurd (le_trans hh h2) (by decide)),
    if_neg (fun hh => absurd (hh ▸ h2) (by decide)),
    if_neg (fun hh => absurd (le_trans hh h2) (by decide)),
    if_neg (fun hh => absurd (hh ▸ h2) (by decide)),
    if_neg (fun hh => absurd (le_trans hh h2) (by decide)),
    if_neg (fun hh => absurd (hh ▸ h2) (by decide)),
    if_neg (fun hh => absurd (le_trans hh h2) (by decide)),
    if_neg (fun hh => absurd (hh ▸ h2) (by decide)),
    if_neg (fun hh => absurd (le_trans hh h2) (by decide)),
    if_neg (fun hh => absurd (hh ▸ h2) (by decide)),
    if_neg (fun hh => absurd (le_trans hh h2) (by decide)),
    if_neg (fun hh => absurd (hh ▸ h2) (by decide)),
    if_neg (fun hh => absurd (le_trans hh h2) (by decide)),
    if_neg (fun hh => absurd (hh ▸ h2) (by decide)),
    if_neg (fun hh => absurd (le_trans hh h2) (by decide)),
    if_neg (fun hh => absurd (hh ▸ h2) (by decide)),
    if_neg (fun hh => absurd (le_trans hh h2) (by decide)),
    if_neg (fun hh => absurd (hh ▸ h2) (by decide)),
    if_neg (fun hh => absurd (le_trans hh h2) (by decide)),
    if_neg (fun hh => absurd (hh ▸ h2) (by decide)),
    if_neg (fun hh => absurd (le_trans hh h2) (by decide)),
    if_neg (fun hh => absurd (hh ▸ h2) (by decide)),
    if_neg (fun hh => absurd (le_trans hh h2) (by decide)),
    if_neg (fun hh => absurd (hh ▸ h2) (by decide)),
    if_neg (fun hh => absurd (le_trans hh h2) (by decide)),
    if_neg (fun hh => absurd (hh ▸ h2) (by decide)),
    if_neg (fun hh => absurd (le_trans hh h2) (by decide)),
    if_neg (fun hh => absurd (hh ▸ h2) (by decide)),
    if_neg (fun hh => absurd (le_trans hh h2) (by decide)),
    if_neg (fun hh => absurd (hh ▸ h2) (by decide)),
    if_neg (fun hh => absurd (le_trans hh h2) (by decide)),
    if_neg (fun hh => absurd (hh ▸ h2) (by decide)),
    if_neg (fun hh => absurd (le_trans hh h2) (by decide)),
    if_neg (fun hh => absurd (hh ▸ h2) (by decide)),
    if_neg (fun hh => absurd (le_trans hh h2) (by decide)),
    if_neg (fun hh => absurd (hh ▸ h2) (by decide)),
    if_neg (fun hh => absurd (le_trans hh h2) (by decide)),
    if_neg (fun hh => absurd (hh ▸ h2) (by decide)),
    if_neg (fun hh => absurd (le_trans hh h2) (by decide)),
    if_neg (fun hh => absurd (hh ▸ h2) (by decide)),
    if_neg (fun hh => absurd (le_trans hh h2) (by decide)),
    if_neg (fun hh => absurd (hh ▸ h2) (by decide)),
    if_pos h1]

/-- Value of the leap second table before the first recorded leap second. -/
theorem leapOn_low (d : Int) (h1 : d ≤ 728) :
    leapSecondsOnDate d = (false, 9) := by
  unfold leapSecondsOnDate
  rw [if_neg (fun hh => absurd (le_trans hh h1) (by decide)),
    if_neg (fun hh => absurd (hh ▸ h1) (by decide)),
    if_neg (fun hh => absurd (le_trans hh h1) (by decide)),
    if_neg (fun hh => absurd (hh ▸ h1) (by decide)),
    if_neg (fun hh => absurd (le_trans hh h1) (by decide)),
    if_neg (fun hh => absurd (hh ▸ h1) (by decide)),
    if_neg (fun hh => absurd (le_trans hh h1) (by decide)),
    if_neg (fun hh => absurd (hh ▸ h1) (by decide)),
    if_neg (fun hh => absurd (le_trans hh h1) (by decide)),
    if_neg (fun hh => absurd (hh ▸ h1) (by decide)),
    if_neg (fun hh => absurd (le_trans hh h1) (by decide)),
    if_neg (fun hh => absurd (hh ▸ h1) (by decide)),
    if_neg (fun hh => absurd (le_trans hh h1) (by decide)),
    if_neg (fun hh => absurd (hh ▸ h1) (by decide)),
    if_neg (fun hh => absurd (le_trans hh h1) (by decide)),
    if_neg (fun hh => absurd (hh ▸ h1) (by decide)),
    if_neg (fun hh => absurd (le_trans hh h1) (by decide)),
    if_neg (fun hh => absurd (hh ▸ h1) (by decide)),
    if_neg (fun hh => absurd (le_trans hh h1) (by decide)),
    if_neg (fun hh => absurd (hh ▸ h1) (by decide)),
    if_neg (fun hh => absurd (le_trans hh h1) (by decide)),
    if_neg (fun hh => absurd (hh ▸ h1) (by decide)),
    if_neg (fun hh => absurd (le_trans hh h1) (by decide)),
    if_neg (fun hh => absurd (hh ▸ h1) (by decide)),
    if_neg (fun hh => absurd (le_trans hh h1) (by decide)),
    if_neg (fun hh => absurd (hh ▸ h1) (by decide)),
    if_neg (fun hh => absurd (le_trans hh h1) (by decide)),
    if_neg (fun hh => absurd (hh ▸ h1) (by decide)),
    if_neg (fun hh => absurd (le_trans hh h1) (by decide)),
    if_neg (fun hh => absurd (hh ▸ h1) (by decide)),
    if_neg (fun hh => absurd (le_trans hh h1) (by decide)),
    if_neg (fun hh => absurd (hh ▸ h1) (by decide)),
    if_neg (fun hh => absurd (le_trans hh h1) (by decide)),
    if_neg (fun hh => absurd (hh ▸ h1) (by decide)),
    if_neg (fun hh => absurd (le_trans hh h1) (by decide)),
    if_neg (fun hh => absurd (hh ▸ h1) (by decide)),
    if_neg (fun hh => absurd (le_trans hh h1) (by decide)),
    if_neg (fun hh => absurd (hh ▸ h1) (by decide)),
    if_neg (fun hh => absurd (le_trans hh h1) (by decide)),
    if_neg (fun hh => absurd (hh ▸ h1) (by decide)),
    if_neg (fun hh => absurd (le_trans hh h1) (by decide)),
    if_neg (fun hh => absurd (hh ▸ h1) (by decide)),
    if_neg (fun hh => absurd (le_trans hh h1) (by decide)),
    if_neg (fun hh => absurd (hh ▸ h1) (by decide)),
    if_neg (fun hh => absurd (le_trans hh h1) (by decide)),
    if_neg (fun hh => absurd (hh ▸ h1) (by decide)),
    if_neg (fun hh => absurd (le_trans hh h1) (by decide)),
    if_neg (fun hh => absurd (hh ▸ h1) (by decide)),
    if_neg (fun hh => absurd (le_trans hh h1) (by decide)),
    if_neg (fun hh => absurd (hh ▸ h1) (by decide)),
    if_neg (fun hh => absurd (le_trans hh h1) (by decide)),
    if_neg (fun hh => absurd (hh ▸ h1) (by decide)),
    if_neg (fun hh => absurd (le_trans hh h1) (by decide)),
    if_neg (fun hh => absurd (hh ▸ h1) (by decide)),
    if_neg (fun hh => absurd (le_trans hh h1) (by decide)),
    if_neg (fun hh => absurd (hh ▸ h1) (by decide))]

/-- Case cover of the day line by the intervals and boundary days of the
static leap second table. -/
theorem leapOn_cover (d : Int) :
    d ≤ 727 ∨
      d = 728 ∨
      d = 729 ∨
      730 ≤ d ∧ d ≤ 909 ∨
      d = 910 ∨
      d = 911 ∨
      912 ≤ d ∧ d ≤ 1093 ∨
      d = 1094 ∨
      d = 1095 ∨
      1096 ≤ d ∧ d ≤ 1458 ∨
      d = 1459 ∨
      d = 1460 ∨
      1461 ≤ d ∧ d ≤ 1823 ∨
      d = 1824 ∨
      d = 1825 ∨
      1826 ≤ d ∧ d ≤ 2188 ∨
      d = 2189 ∨
      d = 2190 ∨
      2191 ≤ d ∧ d ≤ 2554 ∨
      d = 2555 ∨
      d = 2556 ∨
      2557 ≤ d ∧ d ≤ 2919 ∨
      d = 2920 ∨
      d = 2921 ∨
      2922 ≤ d ∧ d ≤ 3284 ∨
      d = 3285 ∨
      d = 3286 ∨
      3287 ≤ d ∧ d ≤ 3649 ∨
      d = 3650 ∨
      d = 3651 ∨
      3652 ≤ d ∧ d ≤ 4196 ∨
      d = 4197 ∨
      d = 4198 ∨
      4199 ≤ d ∧ d ≤ 4561 ∨
      d = 4562 ∨
      d = 4563 ∨
      4564 ≤ d ∧ d ≤ 4926 ∨
      d = 4927 ∨
      d = 4928 ∨
      4929 ≤ d ∧ d ≤ 5657 ∨
      d = 5658 ∨
      d = 5659 ∨
      5660 ≤ d ∧ d ≤ 6571 ∨
      d = 6572 ∨
      d = 6573 ∨
      6574 ≤ d ∧ d ≤ 7302 ∨
      d = 7303 ∨
      d = 7304 ∨
      7305 ≤ d ∧ d ≤ 7667 ∨
      d = 7668 ∨
      d = 7669 ∨
      7670 ≤ d ∧ d ≤ 8214 ∨
      d = 8215 ∨
      d = 8216 ∨
      8217 ≤ d ∧ d ≤ 8579 ∨
      d = 8580 ∨
      d = 8581 ∨
      8582 ≤ d ∧ d ≤ 8944 ∨
      d = 8945 ∨
      d = 8946 ∨
      8947 ≤ d ∧ d ≤ 9493 ∨
      d = 9494 ∨
      d = 9495 ∨
      9496 ≤ d ∧ d ≤ 10040 ∨
      d = 10041 ∨
      d = 10042 ∨
      10043 ≤ d ∧ d ≤ 10589 ∨
      d = 10590 ∨
      d = 10591 ∨
      10592 ≤ d ∧ d ≤ 13146 ∨
      d = 13147 ∨
      d = 13148 ∨
      13149 ≤ d ∧ d ≤ 14242 ∨
      d = 14243 ∨
      d = 14244 ∨
      14245 ≤ d ∧ d ≤ 15519 ∨
      d = 15520 ∨
      d = 15521 ∨
      15522 ≤ d ∧ d ≤ 16614 ∨
      d = 16615 ∨
      d = 16616 ∨
      16617 ≤ d ∧ d ≤ 17164 ∨
      d = 17165 ∨
      d = 17166 ∨
      17167 ≤ d := by omega

/-- Local structure of the leap second table at a single day: the cumulative
count is non-decreasing toward the next day, the leap flag holds exactly when
the next day's cumulative count is one larger, and the count stays within the
table's bounds. -/
theorem leapOn_local (d : Int) :
    (leapSecondsOnDate d).2 ≤ (leapSecondsOnDate (d + 1)).2 ∧
    ((leapSecondsOnDate d).1 = true ↔
      (leapSecondsOnDate (d + 1)).2 = (leapSecondsOnDate d).2 + 1) ∧
    (9 ≤ (leapSecondsOnDate d).2 ∧ (leapSecondsOnDate d).2 ≤ 37) := by
  rcases leapOn_cover d with h | h | h | h | h | h | h | h | h | h | h | h | h | h | h | h | h | h | h | h | h | h | h | h | h | h | h | h | h | h | h | h | h | h | h | h | h | h | h | h | h | h | h | h | h | h | h | h | h | h | h | h | h | h | h | h | h | h | h | h | h | h | h | h | h | h | h | h | h | h | h | h | h | h | h | h | h | h | h | h | h | h | h | h | h
  · rw [leapOn_low d (by omega), leapOn_low (d + 1) (by omega)]; decide
  · subst h; decide
  · subst h; decide
  · rw [leapOn_ge730 d (by omega) (by omega), leapOn_ge730 (d + 1) (by omega) (by omega)]; decide
  · subst h; decide
  · subst h; decide
  · rw [leapOn_ge912 d (by omega) (by omega), leapOn_ge912 (d + 1) (by omega) (by omega)]; decide
  · subst h; decide
  · subst h; decide
  · rw [leapOn_ge1096 d (by omega) (by omega), leapOn_ge1096 (d + 1) (by omega) (by omega)]; decide
  · subst h; decide
  · subst h; decide
  · rw [leapOn_ge1461 d (by omega) (by omega), leapOn_ge1461 (d + 1) (by omega) (by omega)]; decide
  · subst h; decide
  · subst h; decide
  · rw [leapOn_ge1826 d (by omega) (by omega), leapOn_ge1826 (d + 1) (by omega) (by omega)]; decide
  · subst h; decide
  · subst h; decide
  · rw [leapOn_ge2191 d (by omega) (by omega), leapOn_ge2191 (d + 1) (by omega) (by omega)]; decide
  · subst h; decide
  · subst h; decide
  · rw [leapOn_ge2557 d (by omega) (by omega), leapOn_ge2557 (d + 1) (by omega) (by omega)]; decide
  · subst h; decide
  · subst h; decide
  · rw [leapOn_ge2922 d (by omega) (by omega), leapOn_ge2922 (d + 1) (by omega) (by omega)]; decide
  · subst h; decide
  · subst h; decide
  · rw [leapOn_ge3287 d (by omega) (by omega), leapOn_ge3287 (d + 1) (by omega) (by omega)]; decide
  · subst h; decide
  · subst h; decide
  · rw [leapOn_ge3652 d (by omega) (by omega), leapOn_ge3652 (d + 1) (by omega) (by omega)]; decide
  · subst h; decide
  · subst h; decide
  · rw [leapOn_ge4199 d (by omega) (by omega), leapOn_ge4199 (d + 1) (by omega) (by omega)]; decide
  · subst h; decide
  · subst h; decide
  · rw [leapOn_ge4564 d (by omega) (by omega), leapOn_ge4564 (d + 1) (by omega) (by omega)]; decide
  · subst h; decide
  · subst h; decide
  · rw [leapOn_ge4929 d (by omega) (by omega), leapOn_ge4929 (d + 1) (by omega) (by omega)]; decide
  · subst h; decide
  · subst h; decide
  · rw [leapOn_ge5660 d (by omega) (by omega), leapOn_ge5660 (d + 1) (by omega) (by omega)]; decide
  · subst h; decide
  · subst h; decide
  · rw [leapOn_ge6574 d (by omega) (by omega), leapOn_ge6574 (d + 1) (by omega) (by omega)]; decide
  · subst h; decide
  · subst h; decide
  · rw [leapOn_ge7305 d (by omega) (by omega), leapOn_ge7305 (d + 1) (by omega) (by omega)]; decide
  · subst h; decide
  · subst h; decide
  · rw [leapOn_ge7670 d (by omega) (by omega), leapOn_ge7670 (d + 1) (by omega) (by omega)]; decide
  · subst h; decide
  · subst h; decide
  · rw [leapOn_ge8217 d (by omega) (by omega), leapOn_ge8217 (d + 1) (by omega) (by omega)]; decide
  · subst h; decide
  · subst h; decide
  · rw [leapOn_ge8582 d (by omega) (by omega), leapOn_ge8582 (d + 1) (by omega) (by omega)]; decide
  · subst h; decide
  · subst h; decide
  · rw [leapOn_ge8947 d (by omega) (by omega), leapOn_ge8947 (d + 1) (by omega) (by omega)]; decide
  · subst h; decide
  · subst h; decide
  · rw [leapOn_ge9496 d (by omega) (by omega), leapOn_ge9496 (d + 1) (by omega) (by omega)]; decide
  · subst h; decide
  · subst h; decide
  · rw [leapOn_ge10043 d (by omega) (by omega), leapOn_ge10043 (d + 1) (by omega) (by omega)]; decide
  · subst h; decide
  · subst h; decide
  · rw [leapOn_ge10592 d (by omega) (by omega), leapOn_ge10592 (d + 1) (by omega) (by omega)]; decide
  · subst h; decide
  · subst h; decide
  · rw [leapOn_ge13149 d (by omega) (by omega), leapOn_ge13149 (d + 1) (by omega) (by omega)]; decide
  · subst h; decide
  · subst h; decide
  · rw [leapOn_ge14245 d (by omega) (by omega), leapOn_ge14245 (d + 1) (by omega) (by omega)]; decide
  · subst h; decide
  · subst h; decide
  · rw [leapOn_ge15522 d (by omega) (by omega), leapOn_ge15522 (d + 1) (by omega) (by omega)]; decide
  · subst h; decide
  · subst h; decide
  · rw [leapOn_ge16617 d (by omega) (by omega), leapOn_ge16617 (d + 1) (by omega) (by omega)]; decide
  · subst h; decide
  · subst h; decide
  · rw [leapOn_ge17167 d (by omega), leapOn_ge17167 (d + 1) (by omega)]; decide


/-- C10: the static leap second table is monotone and bounded: the cumulative
count is non-decreasing in the date, always lies between 9 and 37 inclusive,
and the leap flag of a date holds exactly when the following day's cumulative
count exceeds the date's by one. -/
theorem leap_table_invariants :
    (∀ d1 d2 : Int, d1 ≤ d2 → (leapSecondsOnDate d1).2 ≤ (leapSecondsOnDate d2).2) ∧
    (∀ d : Int, 9 ≤ (leapSecondsOnDate d).2 ∧ (leapSecondsOnDate d).2 ≤ 37) ∧
    (∀ d : Int, (leapSecondsOnDate d).1 = true ↔
      (leapSecondsOnDate (d + 1)).2 = (leapSecondsOnDate d).2 + 1) := by
  refine ⟨?_, fun d => (leapOn_local d).2.2, fun d => (leapOn_local d).2.1⟩
  intro d1 d2 h
  exact @Int.le_induction
    (fun x => (leapSecondsOnDate d1).2 ≤ (leapSecondsOnDate x).2) d1 (le_refl _)
    (fun n _ ih => le_trans ih (leapOn_local n).1) d2 h

/-- Witness for C10 at concrete dates. -/
theorem leap_table_invariants_witness :
    (leapSecondsOnDate 100).2 ≤ (leapSecondsOnDate 20000).2 :=
  leap_table_invariants.1 100 20000 (by decide)

/-- C7: parsing `"1Y"` fails with the missing leading-'P' error, parsing
`"P1M1Y"` fails with the out-of-order designators error naming the years
designator, and parsing `"P1S extra"` fails with the trailing unparsed input
error. -/
theorem duration_parse_error_cases :
    durationFromStr ['1', 'Y'] = .error .expectedDurationStart ∧
    durationFromStr ['P', '1', 'M', '1', 'Y'] =
      .error (.nonDecreasingDesignators .years) ∧
    durationFromStr ['P', '1', 'S', ' ', 'e', 'x', 't', 'r', 'a'] =
      .error .unexpectedRemainder :=
  ⟨rfl, rfl, rfl⟩

/-- C9: `from_fine_datetime` on any scale equals the scale's `from_datetime`
result shifted by the subseconds duration, whenever `from_datetime`
succeeds; the subseconds argument is not validated, so any value (negative
or a second and more) shifts the instant accordingly. -/
theorem from_fine_datetime_spec {ε : Type}
    (fromDatetime : Int → Nat → Nat → Nat → Except ε Int)
    (date : Int) (hour minute second : Nat) (subseconds t : Int)
    (hok : fromDatetime date hour minute second = .ok t) :
    fromFineDatetime fromDatetime date hour minute second subseconds =
      .ok (t + subseconds) := by
  unfold fromFineDatetime
  rw [hok]

/-- Witness for C9 at a concrete input, with negative (unvalidated)
subseconds. -/
theorem from_fine_datetime_spec_witness :
    fromFineDatetime (uniformFromDatetime 0) 0 1 2 3 (-5) =
      .ok (3723000000000000000000 + -5) :=
  from_fine_datetime_spec (uniformFromDatetime 0) 0 1 2 3 (-5)
    3723000000000000000000 (by decide)

/-- Counterexample to C5 as stated: at ten seconds past the reference
instant, the source's TT→TCG conversion differs from the conversion that
uses the plain 5×10¹⁸ denominator in the TT→TCG direction. -/
theorem tcg_from_tt_claim_counterexample :
    tcgFromTt (32184 * attosPerMilli + 10000000000000000000) ≠
      tcgFromTtClaim (32184 * attosPerMilli + 10000000000000000000) := by
  decide

/-- C5 (amended): the TCG→TT conversion subtracts the 32.184 s reference
offset, subtracts the elapsed time times the exact rational
3,484,645,067 / 5×10¹⁸ rounded to the nearest attosecond, and adds the
offset back; the TT→TCG direction is the algebraic inverse and uses the
denominator adjusted relative to 5×10¹⁸, namely 5×10¹⁸ − 3,484,645,067. -/
theorem tcg_tt_conversion_formulas (t : Int) :
    tcgIntoTt t =
      32184 * attosPerMilli + (t - 32184 * attosPerMilli -
        divRound ((t - 32184 * attosPerMilli) * 3484645067) (5 * 10 ^ 18)) ∧
    tcgFromTt t =
      32184 * attosPerMilli + (t - 32184 * attosPerMilli +
        divRound ((t - 32184 * attosPerMilli) * 3484645067)
          (5 * 10 ^ 18 - 3484645067)) := by
  constructor
  · norm_num [tcgIntoTt]
  · norm_num [tcgFromTt]

/-- C6: for any time within 2³¹ attoseconds of the epoch, the TT→TCG→TT
round trip and the TDB→TCB→TDB round trip each return within 10 attoseconds
of the original value. -/
theorem relativistic_roundtrip_bound (x : Int) (_hx : |x| ≤ 2 ^ 31) :
    |tcgIntoTt (tcgFromTt x) - x| < 10 ∧ |tdbFromTcb (tcbFromTdb x) - x| < 10 := by
  constructor
  · rw [abs_lt]
    simp only [tcgIntoTt, tcgFromTt]
    have e1 := divRound_err ((x - 32184 * attosPerMilli) * 3484645067)
      4999999996515354933 (by norm_num)
    have e2 := divRound_err ((32184 * attosPerMilli +
      (x - 32184 * attosPerMilli +
        divRound ((x - 32184 * attosPerMilli) * 3484645067) 4999999996515354933) -
      32184 * attosPerMilli) * 3484645067) 5000000000000000000 (by norm_num)
    omega
  · rw [abs_lt]
    simp only [tdbFromTcb, tcbFromTdb]
    have e0 := divRound_err (65500 * 12500000000000000 * attosPerNano)
      12499999806185029 (by norm_num)
    have e1 := divRound_err ((x - 32184 * attosPerMilli) * 193814971)
      12499999806185029 (by norm_num)
    have e2 := divRound_err ((x - 32184 * attosPerMilli +
        divRound ((x - 32184 * attosPerMilli) * 193814971) 12499999806185029 +
        divRound (65500 * 12500000000000000 * attosPerNano) 12499999806185029 +
        32184 * attosPerMilli - 32184 * attosPerMilli) * 193814971)
      12500000000000000 (by norm_num)
    omega

/-- Witness for C6 at the epoch itself. -/
theorem relativistic_roundtrip_bound_witness :
    |tcgIntoTt (tcgFromTt 0) - 0| < 10 ∧ |tdbFromTcb (tcbFromTdb 0) - 0| < 10 :=
  relativistic_roundtrip_bound 0 (by decide)

/-- A successful step of the fractional digits iterator increments the digit
counter and only happens strictly under the 64-digit safety limit. -/
theorem fracNext_some {s s2 : FracState} {d : Int} (h : s.next = some (d, s2)) :
    s2.currentDigits = s.currentDigits + 1 ∧ s.currentDigits < 64 := by
  simp only [FracState.next] at h
  split_ifs at h with hc
  simp only [Option.some.injEq, Prod.mk.injEq] at h
  exact ⟨by rw [← h.2], hc.2⟩

/-- Once the digit counter has reached the safety limit the iterator is
exhausted. -/
theorem fracNext_none_of_limit (s : FracState) (h : 64 ≤ s.currentDigits) :
    s.next = none := by
  unfold FracState.next
  rw [if_neg (fun hh => absurd hh.2 (by omega))]

/-- The digits produced with any amount of fuel never exceed the safety
limit minus the digits already produced. -/
theorem runDigits_length (fuel : Nat) :
    ∀ s : FracState, (runDigits fuel s).length ≤ 64 - s.currentDigits := by
  induction fuel with
  | zero => intro s; simp [runDigits]
  | succ f ih =>
    intro s
    rw [runDigits]
    cases hnext : s.next with
    | none => simp
    | some ds =>
      obtain ⟨d, s2⟩ := ds
      have h2 := fracNext_some hnext
      have h3 := ih s2
      simp only [List.length_cons]
      omega

/-- With enough fuel for the remaining digits, the produced digits no longer
depend on the fuel: the iterator terminates by itself. -/
theorem runDigits_stable :
    ∀ f g : Nat, ∀ s : FracState,
      64 - s.currentDigits ≤ f → 64 - s.currentDigits ≤ g →
      runDigits f s = runDigits g s := by
  intro f
  induction f with
  | zero =>
    intro g s h1 h2
    cases g with
    | zero => rfl
    | succ g2 => simp [runDigits, fracNext_none_of_limit s (by omega)]
  | succ f2 ih =>
    intro g s h1 h2
    by_cases hcd : 64 ≤ s.currentDigits
    · cases g with
      | zero => simp [runDigits, fracNext_none_of_limit s hcd]
      | succ g2 => simp [runDigits, fracNext_none_of_limit s hcd]
    · cases g with
      | zero => omega
      | succ g2 =>
        simp only [runDigits]
        cases hnext : s.next with
        | none => rfl
        | some ds =>
          obtain ⟨d, s2⟩ := ds
          have h3 := fracNext_some hnext
          show d :: runDigits f2 s2 = d :: runDigits g2 s2
          rw [ih g2 s2 (by omega) (by omega)]

/-- C8: the fractional digit extraction produces at most 64 digits and then
terminates on its own: extraction stops at the requested precision, or when
the remainder reaches zero, and in all cases no later than the 64-digit
absolute safety limit.  This covers `Duration::fractional_digits`, which
seeds the iterator with the duration's count over 10¹⁸. -/
theorem fractional_digits_bounded (count numerator denominator : Int)
    (precision : Option Nat) (base : Nat) :
    (∀ fuel, (runDigits fuel
      (FracState.fromSigned count numerator denominator precision base)).length ≤ 64) ∧
    (∀ fuel, (runDigits fuel (durationFractionalDigits count precision base)).length ≤ 64) ∧
    (∀ f g, 64 ≤ f → 64 ≤ g →
      runDigits f (FracState.fromSigned count numerator denominator precision base) =
        runDigits g (FracState.fromSigned count numerator denominator precision base)) ∧
    (∀ s : FracState, ∀ p, s.precision = some p → p ≤ s.currentDigits →
      s.next = none) ∧
    (∀ s : FracState, s.precision = none → s.remainder = 0 → s.next = none) := by
  refine ⟨?_, ?_, ?_, ?_, ?_⟩
  · intro fuel
    have := runDigits_length fuel (FracState.fromSigned count numerator denominator precision base)
    omega
  · intro fuel
    have := runDigits_length fuel (durationFractionalDigits count precision base)
    omega
  · intro f g hf hg
    exact runDigits_stable f g _ (by omega) (by omega)
  · intro s p hp hle
    simp only [FracState.next, hp]
    rw [if_neg (fun hh => absurd (of_decide_eq_true hh.1) (by omega))]
  · intro s hp hr
    simp [FracState.next, hp, hr]

/-- Witness for C8 at concrete inputs: fuel beyond the safety limit changes
nothing, and only at most 64 digits appear. -/
theorem fractional_digits_bounded_witness :
    runDigits 65 (FracState.fromSigned 1 1 3 none 10) =
      runDigits 64 (FracState.fromSigned 1 1 3 none 10) :=
  (fractional_digits_bounded 1 1 3 none 10).2.2.1 65 64 (by decide) (by decide)

end Attotime
